import Mathlib

/-
Verification of the store layer of the ecommerce-api repository.

The development shallowly embeds the postgres store layer (query fragment
builders, constraint-violation translation, and the per-resource store
operations) as executable Lean functions, together with a relational model
of the storage engine that executes the embedded statements.  Go strings
become Lean String, Go int becomes Int (no overflow is relevant to any
property considered here), Go error results become Except values.
-/

namespace Ecom

/-- Single-quote character (codepoint 39), used by the SQL fragment builders. -/
def squote : Char := Char.ofNat 39

/-- One-character string holding the single quote. -/
def squoteStr : String := String.mk [squote]

/-- Decimal digit character for a digit value; values above nine are clamped
    (they never occur: callers always pass a value below ten). -/
def digitChar : Nat → Char
| 0 => Char.ofNat 48
| 1 => Char.ofNat 49
| 2 => Char.ofNat 50
| 3 => Char.ofNat 51
| 4 => Char.ofNat 52
| 5 => Char.ofNat 53
| 6 => Char.ofNat 54
| 7 => Char.ofNat 55
| 8 => Char.ofNat 56
| 9 => Char.ofNat 57
| _ + 10 => Char.ofNat 48

/-- Fuel-driven decimal rendering of a natural number, most significant digit
    first.  Fuel is structural so that every use reduces inside the kernel;
    natDecimal supplies enough fuel for all digits. -/
def natDecimalAux : Nat → Nat → List Char
| 0, _ => []
| fuel + 1, n =>
  if n < 10 then [digitChar n]
  else natDecimalAux fuel (n / 10) ++ [digitChar (n % 10)]

/-- Decimal rendering of a natural number (the digits of Sprintf percent-d). -/
def natDecimal (n : Nat) : List Char := natDecimalAux (n + 1) n

/-- Embedding of the Go fmt.Sprintf percent-d verb on a Go int. -/
def intDecimal (i : Int) : String :=
  if i < 0 then String.mk (Char.ofNat 45 :: natDecimal i.natAbs)
  else String.mk (natDecimal i.toNat)

/-- FormatLimitOffset, from src/postgres/products.go (helper section of the
    postgres package): a SQL string for a given limit and offset. -/
def FormatLimitOffset (limit : Int) (offset : Int) : String :=
  if limit > 0 ∧ offset > 0 then
    "LIMIT " ++ intDecimal limit ++ " OFFSET " ++ intDecimal offset
  else if limit > 0 then "LIMIT " ++ intDecimal limit
  else if offset > 0 then "OFFSET " ++ intDecimal offset
  else ""

/-- FormatSort, from the postgres package helpers: ORDER BY fragment for a
    column, empty when the column is empty.  The column is inlined verbatim. -/
def FormatSort (column : String) : String :=
  if column ≠ "" then "ORDER BY " ++ column else ""

/-- FormatAnd, from the postgres package helpers: equality fragment for a
    string value, empty when the value is empty.  The value is inlined
    between single quotes with no escaping. -/
def FormatAnd (column : String) (value : String) : String :=
  if value ≠ "" then "AND " ++ column ++ "=" ++ squoteStr ++ value ++ squoteStr
  else ""

/-- FormatAndOp, from src/postgres/postgres.go: identical shape to FormatAnd
    (the older name of the string equality fragment builder). -/
def FormatAndOp (c : String) (v : String) : String :=
  if v ≠ "" then "AND " ++ c ++ "=" ++ squoteStr ++ v ++ squoteStr
  else ""

/-- FormatAndInt, from the postgres package helpers: equality fragment for an
    integer value, empty when the value is zero. -/
def FormatAndInt (column : String) (value : Int) : String :=
  if value ≠ 0 then
    "AND " ++ column ++ "=" ++ squoteStr ++ intDecimal value ++ squoteStr
  else ""

/-! ### Query strings built by the List operations

The List operations concatenate the fragments after a base query whose WHERE
clause is the tautology 1=1.  The tail functions below reproduce exactly the
text each store appends after that base clause (backtick raw strings in the
source contribute the newline-tab separators). -/

/-- Newline-tab separator contributed by the raw string pieces of the query. -/
def ntStr : String := "\n\t"

/-- Filter accepted by ProductStore.List, from the domain package. -/
structure ProductFilter where
  ID : Int := 0
  CategoryID : Int := 0
  Limit : Int := 0
  Offset : Int := 0
  «Sort» : String := ""
deriving DecidableEq

/-- Filter accepted by categoryStore.List, from the domain package. -/
structure CategoryFilter where
  ID : Int := 0
  Name : String := ""
  «Sort» : String := ""
  Limit : Int := 0
  Offset : Int := 0
deriving DecidableEq

/-- Filter accepted by cartStore.List, from the domain package. -/
structure CartFilter where
  ID : Int := 0
  UserID : Int := 0
  Limit : Int := 0
  Offset : Int := 0
  «Sort» : String := ""
deriving DecidableEq

/-- Text appended by ProductStore.List after SELECT star FROM products WHERE
    1=1, from src/postgres/product.go. -/
def productListQueryTail (filter : ProductFilter) : String :=
  ntStr ++ FormatSort filter.«Sort»
    ++ ntStr ++ FormatAndInt "category_id" filter.CategoryID
    ++ ntStr ++ FormatAndInt "id" filter.ID
    ++ ntStr ++ FormatLimitOffset filter.Limit filter.Offset
    ++ ntStr

/-- Text appended by categoryStore.List after SELECT star FROM categories
    WHERE 1=1, from src/postgres/category.go. -/
def categoryListQueryTail (filter : CategoryFilter) : String :=
  ntStr ++ FormatSort filter.«Sort»
    ++ ntStr ++ FormatAnd "name" filter.Name
    ++ ntStr ++ FormatAndInt "id" filter.ID
    ++ ntStr ++ FormatLimitOffset filter.Limit filter.Offset
    ++ ntStr

/-- Text appended by cartStore.List after SELECT star FROM carts WHERE 1=1,
    from the cart store file (src/unnamed/part_005). -/
def cartListQueryTail (filter : CartFilter) : String :=
  ntStr ++ FormatSort filter.«Sort»
    ++ ntStr ++ FormatAndInt "id" filter.ID
    ++ ntStr ++ FormatAndInt "user_id" filter.UserID
    ++ ntStr ++ FormatLimitOffset filter.Limit filter.Offset
    ++ ntStr

/-! ### Syntactic validity of the query tail

Modelled from the spec: the storage engine accepts a SELECT tail consisting of
zero or more AND conjuncts (an identifier compared for equality with a single
quoted literal), then an optional ORDER BY over a column identifier, then an
optional LIMIT count and an optional OFFSET count.  The checker below is a
recursive-descent recogniser for that clause grammar; the fragment sets built
by the stores contain at most two conjuncts, which the three conjunct
attempts cover. -/

/-- Whitespace recogniser: space, newline or tab. -/
def isWsChar (c : Char) : Bool := c.toNat == 32 || c.toNat == 10 || c.toNat == 9

/-- Digit characters, by codepoint range. -/
def isDigitChar (c : Char) : Bool := decide (48 ≤ c.toNat ∧ c.toNat ≤ 57)

/-- Identifier characters: ASCII letters, digits and underscore. -/
def isIdentChar (c : Char) : Bool :=
  decide ((65 ≤ c.toNat ∧ c.toNat ≤ 90) ∨ (97 ≤ c.toNat ∧ c.toNat ≤ 122)
    ∨ (48 ≤ c.toNat ∧ c.toNat ≤ 57) ∨ c.toNat = 95)

/-- Drop leading whitespace. -/
def skipWs : List Char → List Char
| [] => []
| c :: cs => if isWsChar c then skipWs cs else c :: cs

/-- Strip an exact token from the front, or fail. -/
def stripToken : List Char → List Char → Option (List Char)
| [], cs => some cs
| _ :: _, [] => none
| t :: ts, c :: cs => if c = t then stripToken ts cs else none

/-- Split off the longest identifier prefix. -/
def spanIdent : List Char → List Char × List Char
| [] => ([], [])
| c :: cs =>
  if isIdentChar c then
    let p := spanIdent cs
    (c :: p.1, p.2)
  else ([], c :: cs)

/-- Split off the longest prefix free of single quotes. -/
def spanNotQuote : List Char → List Char × List Char
| [] => ([], [])
| c :: cs =>
  if c = squote then ([], c :: cs)
  else
    let p := spanNotQuote cs
    (c :: p.1, p.2)

/-- Split off the longest digit prefix. -/
def spanDigits : List Char → List Char × List Char
| [] => ([], [])
| c :: cs =>
  if isDigitChar c then
    let p := spanDigits cs
    (c :: p.1, p.2)
  else ([], c :: cs)

/-- Parse one AND conjunct: AND ident = quoted literal. -/
def parseAndClause (cs : List Char) : Option (List Char) :=
  match stripToken ("AND".toList) cs with
  | none => none
  | some cs1 =>
    match spanIdent (skipWs cs1) with
    | ([], _) => none
    | (_ :: _, cs2) =>
      match stripToken [Char.ofNat 61, squote] cs2 with
      | none => none
      | some cs3 =>
        let p := spanNotQuote cs3
        stripToken [squote] p.2

/-- Parse ORDER BY over one identifier. -/
def parseOrderBy (cs : List Char) : Option (List Char) :=
  match stripToken ("ORDER".toList) cs with
  | none => none
  | some cs1 =>
    match stripToken ("BY".toList) (skipWs cs1) with
    | none => none
    | some cs2 =>
      match spanIdent (skipWs cs2) with
      | ([], _) => none
      | (_ :: _, cs3) => some cs3

/-- Parse a keyword followed by a nonempty digit run. -/
def parseKwNumber (kw : List Char) (cs : List Char) : Option (List Char) :=
  match stripToken kw cs with
  | none => none
  | some cs1 =>
    match spanDigits (skipWs cs1) with
    | ([], _) => none
    | (_ :: _, cs2) => some cs2

/-- Attempt a sub-parser after skipping whitespace; on failure leave the
    input unchanged (trailing garbage is then caught by the final emptiness
    check). -/
def tryParse (p : List Char → Option (List Char)) (cs : List Char) : List Char :=
  match p (skipWs cs) with
  | some rest => rest
  | none => cs

/-- Recogniser for the clause grammar described above, on character lists. -/
def sqlTailValidL (cs : List Char) : Bool :=
  let cs1 := tryParse parseAndClause (tryParse parseAndClause (tryParse parseAndClause cs))
  let cs2 := tryParse parseOrderBy cs1
  let cs3 := tryParse (parseKwNumber ("LIMIT".toList)) cs2
  let cs4 := tryParse (parseKwNumber ("OFFSET".toList)) cs3
  (skipWs cs4).isEmpty

/-- Recogniser for the clause grammar described above. -/
def sqlTailValid (s : String) : Bool := sqlTailValidL s.toList

/-! ### Elementary facts about the builders and the recogniser -/

/-- Appending strings appends their character lists. -/
theorem toList_append (s t : String) : (s ++ t).toList = s.toList ++ t.toList := rfl

/-- The character list of a packed string is the packed list. -/
theorem toList_mk (l : List Char) : (String.mk l).toList = l := rfl

/-- A string with a nonempty character list is not the empty string. -/
theorem ne_empty_of_toList_ne_nil {s : String} (h : s.toList ≠ []) : s ≠ "" := by
  intro he
  exact h (by rw [he]; rfl)

/-- Every digit character produced by digitChar lies in the digit range. -/
theorem digitChar_isDigit (d : Nat) : isDigitChar (digitChar d) = true := by
  unfold digitChar
  split <;> decide

/-- Every character of the fuel-driven decimal rendering is a digit. -/
theorem natDecimalAux_digits (fuel : Nat) :
    ∀ n c, c ∈ natDecimalAux fuel n → isDigitChar c = true := by
  induction fuel with
  | zero => intro n c hc; simp [natDecimalAux] at hc
  | succ fuel ih =>
    intro n c hc
    unfold natDecimalAux at hc
    by_cases h : n < 10
    · rw [if_pos h] at hc
      simp at hc
      rw [hc]; exact digitChar_isDigit n
    · rw [if_neg h] at hc
      rcases List.mem_append.1 hc with h1 | h2
      · exact ih _ _ h1
      · simp at h2
        rw [h2]; exact digitChar_isDigit (n % 10)

/-- The decimal rendering is never empty. -/
theorem natDecimal_ne_nil (n : Nat) : natDecimal n ≠ [] := by
  unfold natDecimal natDecimalAux
  by_cases h : n < 10
  · rw [if_pos h]; simp
  · rw [if_neg h]; simp

/-- Every character of the decimal rendering of a natural number is a digit. -/
theorem natDecimal_digits (n : Nat) : ∀ c ∈ natDecimal n, isDigitChar c = true :=
  fun c hc => natDecimalAux_digits (n + 1) n c hc

/-- On a positive int, intDecimal renders the digits of the natural value. -/
theorem intDecimal_pos (i : Int) (h : 0 < i) :
    (intDecimal i).toList = natDecimal i.toNat := by
  unfold intDecimal
  rw [if_neg (by omega)]
  rfl

/-- Characters of intDecimal are digits or the minus sign. -/
theorem intDecimal_chars (i : Int) :
    ∀ c ∈ (intDecimal i).toList, isDigitChar c = true ∨ c.toNat = 45 := by
  intro c hc
  unfold intDecimal at hc
  by_cases h : i < 0
  · rw [if_pos h] at hc
    rw [toList_mk] at hc
    rcases List.mem_cons.1 hc with h1 | h2
    · right; rw [h1]; decide
    · left; exact natDecimal_digits _ c h2
  · rw [if_neg h] at hc
    rw [toList_mk] at hc
    left; exact natDecimal_digits _ c hc

/-- Digits and the minus sign are not the quote character. -/
theorem intDecimal_no_quote (i : Int) :
    ∀ c ∈ (intDecimal i).toList, ¬ c = squote := by
  intro c hc he
  rcases intDecimal_chars i c hc with h | h
  · rw [he] at h; simp [isDigitChar, squote] at h
  · rw [he] at h; simp [squote] at h

/-- A digit character is not whitespace. -/
theorem not_ws_of_digit {c : Char} (h : isDigitChar c = true) : isWsChar c = false := by
  simp [isDigitChar] at h
  simp [isWsChar]
  omega

/-- An identifier character is not whitespace. -/
theorem not_ws_of_ident {c : Char} (h : isIdentChar c = true) : isWsChar c = false := by
  simp [isIdentChar] at h
  simp [isWsChar]
  omega

/-- Skipping whitespace ignores a leading all-whitespace block. -/
theorem skipWs_ws_append (ws cs : List Char) (h : ∀ c ∈ ws, isWsChar c = true) :
    skipWs (ws ++ cs) = skipWs cs := by
  induction ws with
  | nil => rfl
  | cons c ws ih =>
    have hc : isWsChar c = true := h c (by simp)
    simp only [List.cons_append, skipWs, hc, if_true]
    exact ih (fun x hx => h x (by simp [hx]))

/-- Skipping whitespace stops at a non-whitespace head. -/
theorem skipWs_cons_of_not {c : Char} (cs : List Char) (h : isWsChar c = false) :
    skipWs (c :: cs) = c :: cs := by
  simp [skipWs, h]

/-- Stripping a token succeeds on exactly that token as a prefix. -/
theorem stripToken_append (t rest : List Char) : stripToken t (t ++ rest) = some rest := by
  induction t with
  | nil => rfl
  | cons c t ih => simp [stripToken, ih]

/-- Head of a character list is not an identifier character (or the list is
    empty). -/
def headNotIdent : List Char → Prop
| [] => True
| c :: _ => isIdentChar c = false

/-- Head of a character list is not a digit (or the list is empty). -/
def headNotDigit : List Char → Prop
| [] => True
| c :: _ => isDigitChar c = false

/-- spanIdent splits an identifier block from a non-identifier continuation. -/
theorem spanIdent_append (a b : List Char) (ha : ∀ c ∈ a, isIdentChar c = true)
    (hb : headNotIdent b) : spanIdent (a ++ b) = (a, b) := by
  induction a with
  | nil =>
    cases b with
    | nil => rfl
    | cons c bs => simp [spanIdent, headNotIdent] at hb ⊢; simp [hb]
  | cons c as ih =>
    have hc : isIdentChar c = true := ha c (by simp)
    simp only [List.cons_append, spanIdent, hc, if_true]
    simp only [List.append_eq]
    rw [ih (fun x hx => ha x (by simp [hx]))]

/-- spanNotQuote splits a quote-free block ending at a quote. -/
theorem spanNotQuote_append (a r : List Char) (ha : ∀ c ∈ a, ¬ c = squote) :
    spanNotQuote (a ++ squote :: r) = (a, squote :: r) := by
  induction a with
  | nil => simp [spanNotQuote]
  | cons c as ih =>
    have hc : ¬ c = squote := ha c (by simp)
    simp only [List.cons_append, spanNotQuote, hc, if_false]
    simp only [List.append_eq]
    rw [ih (fun x hx => ha x (by simp [hx]))]

/-- spanDigits splits a digit block from a non-digit continuation. -/
theorem spanDigits_append (a b : List Char) (ha : ∀ c ∈ a, isDigitChar c = true)
    (hb : headNotDigit b) : spanDigits (a ++ b) = (a, b) := by
  induction a with
  | nil =>
    cases b with
    | nil => rfl
    | cons c bs => simp [spanDigits, headNotDigit] at hb ⊢; simp [hb]
  | cons c as ih =>
    have hc : isDigitChar c = true := ha c (by simp)
    simp only [List.cons_append, spanDigits, hc, if_true]
    simp only [List.append_eq]
    rw [ih (fun x hx => ha x (by simp [hx]))]

/-! ### Composite parsing lemmas -/

/-- Character list of the newline-tab separator. -/
def ntL : List Char := ntStr.toList

/-- The separator consists of whitespace only. -/
theorem ntL_ws : ∀ c ∈ ntL, isWsChar c = true := by decide

/-- Concatenating whitespace blocks yields a whitespace block. -/
theorem ws_append {a b : List Char} (ha : ∀ c ∈ a, isWsChar c = true)
    (hb : ∀ c ∈ b, isWsChar c = true) : ∀ c ∈ a ++ b, isWsChar c = true := by
  intro c hc
  rcases List.mem_append.1 hc with h | h
  · exact ha c h
  · exact hb c h

/-- An attempted parse that succeeds returns the remainder. -/
theorem tryParse_some {p : List Char → Option (List Char)} {cs r : List Char}
    (h : p (skipWs cs) = some r) : tryParse p cs = r := by
  simp [tryParse, h]

/-- An attempted parse that fails leaves the input unchanged. -/
theorem tryParse_none {p : List Char → Option (List Char)} {cs : List Char}
    (h : p (skipWs cs) = none) : tryParse p cs = cs := by
  simp [tryParse, h]

/-- An AND conjunct never starts on the empty list. -/
theorem parseAndClause_nil : parseAndClause [] = none := rfl

/-- An AND conjunct never starts on a character other than A. -/
theorem parseAndClause_cons_ne (c : Char) (cs : List Char)
    (h : ¬ c = Char.ofNat 65) : parseAndClause (c :: cs) = none := by
  unfold parseAndClause
  have : stripToken ("AND".toList) (c :: cs) = none := by
    show stripToken (Char.ofNat 65 :: "ND".toList) (c :: cs) = none
    simp [stripToken, h]
  rw [this]

/-- ORDER BY never starts on the empty list. -/
theorem parseOrderBy_nil : parseOrderBy [] = none := rfl

/-- ORDER BY never starts on a character other than O. -/
theorem parseOrderBy_cons_ne (c : Char) (cs : List Char)
    (h : ¬ c = Char.ofNat 79) : parseOrderBy (c :: cs) = none := by
  unfold parseOrderBy
  have : stripToken ("ORDER".toList) (c :: cs) = none := by
    show stripToken (Char.ofNat 79 :: "RDER".toList) (c :: cs) = none
    simp [stripToken, h]
  rw [this]

/-- ORDER BY fails when O is followed by anything but R (e.g. OFFSET). -/
theorem parseOrderBy_second_ne (c : Char) (cs : List Char)
    (h : ¬ c = Char.ofNat 82) : parseOrderBy (Char.ofNat 79 :: c :: cs) = none := by
  unfold parseOrderBy
  have : stripToken ("ORDER".toList) (Char.ofNat 79 :: c :: cs) = none := by
    show stripToken (Char.ofNat 79 :: Char.ofNat 82 :: "DER".toList)
      (Char.ofNat 79 :: c :: cs) = none
    simp [stripToken, h]
  rw [this]

/-- A keyword-number clause never starts on the empty list. -/
theorem parseKwNumber_nil (c : Char) (t : List Char) :
    parseKwNumber (c :: t) [] = none := rfl

/-- A keyword-number clause fails on a mismatched first character. -/
theorem parseKwNumber_cons_ne (c : Char) (t : List Char) (d : Char) (cs : List Char)
    (h : ¬ d = c) : parseKwNumber (c :: t) (d :: cs) = none := by
  unfold parseKwNumber
  have : stripToken (c :: t) (d :: cs) = none := by simp [stripToken, h]
  rw [this]

/-- Parsing an AND conjunct built from an identifier column and a quote-free
    value consumes exactly the conjunct. -/
theorem parseAndClause_frag (col v rest : List Char) (hcol : col ≠ [])
    (hcolI : ∀ c ∈ col, isIdentChar c = true) (hv : ∀ c ∈ v, ¬ c = squote) :
    parseAndClause ("AND ".toList ++
      (col ++ (Char.ofNat 61 :: squote :: (v ++ squote :: rest)))) = some rest := by
  obtain ⟨c0, col0, rfl⟩ := List.exists_cons_of_ne_nil hcol
  have key1 : stripToken ("AND".toList)
      ("AND ".toList ++ (c0 :: col0 ++ (Char.ofNat 61 :: squote :: (v ++ squote :: rest))))
      = some (Char.ofNat 32 :: (c0 :: col0 ++ (Char.ofNat 61 :: squote :: (v ++ squote :: rest)))) := by
    have e : "AND ".toList ++ (c0 :: col0 ++ (Char.ofNat 61 :: squote :: (v ++ squote :: rest)))
        = "AND".toList ++ (Char.ofNat 32 :: (c0 :: col0 ++ (Char.ofNat 61 :: squote :: (v ++ squote :: rest)))) := rfl
    rw [e, stripToken_append]
  have h32 : isWsChar (Char.ofNat 32) = true := by decide
  have hnw : isWsChar c0 = false := not_ws_of_ident (hcolI c0 (by simp))
  have key2 : skipWs (Char.ofNat 32 :: (c0 :: col0 ++ (Char.ofNat 61 :: squote :: (v ++ squote :: rest))))
      = c0 :: col0 ++ (Char.ofNat 61 :: squote :: (v ++ squote :: rest)) := by
    simp [skipWs, h32, hnw]
  have key3 : spanIdent (c0 :: col0 ++ (Char.ofNat 61 :: squote :: (v ++ squote :: rest)))
      = (c0 :: col0, Char.ofNat 61 :: squote :: (v ++ squote :: rest)) := by
    have h := spanIdent_append (c0 :: col0)
      (Char.ofNat 61 :: squote :: (v ++ squote :: rest)) hcolI
      (show isIdentChar (Char.ofNat 61) = false by decide)
    simpa using h
  have key4 : stripToken [Char.ofNat 61, squote]
      (Char.ofNat 61 :: squote :: (v ++ squote :: rest)) = some (v ++ squote :: rest) := by
    have e : Char.ofNat 61 :: squote :: (v ++ squote :: rest)
        = [Char.ofNat 61, squote] ++ (v ++ squote :: rest) := rfl
    rw [e, stripToken_append]
  have key5 : spanNotQuote (v ++ squote :: rest) = (v, squote :: rest) :=
    spanNotQuote_append v rest hv
  have key6 : stripToken [squote] (squote :: rest) = some rest :=
    stripToken_append [squote] rest
  simp only [parseAndClause, key1, key2, key3, key4, key5, key6]

/-- Parsing a keyword-number clause consumes the keyword, separating
    whitespace and digit run exactly. -/
theorem parseKwNumber_frag (kw ws digits r : List Char)
    (hws : ∀ c ∈ ws, isWsChar c = true) (hd : digits ≠ [])
    (hdig : ∀ c ∈ digits, isDigitChar c = true) (hr : headNotDigit r) :
    parseKwNumber kw (kw ++ (ws ++ (digits ++ r))) = some r := by
  obtain ⟨d0, ds, rfl⟩ := List.exists_cons_of_ne_nil hd
  have key1 : stripToken kw (kw ++ (ws ++ (d0 :: ds ++ r)))
      = some (ws ++ (d0 :: ds ++ r)) := stripToken_append _ _
  have hnw : isWsChar d0 = false := not_ws_of_digit (hdig d0 (by simp))
  have key2 : skipWs (ws ++ (d0 :: ds ++ r)) = d0 :: ds ++ r := by
    rw [skipWs_ws_append ws _ hws]
    exact skipWs_cons_of_not (ds ++ r) hnw
  have key3 : spanDigits (d0 :: ds ++ r) = (d0 :: ds, r) := by
    have h := spanDigits_append (d0 :: ds) r hdig hr
    simpa using h
  simp only [parseKwNumber, key1, key2, key3]

/-! ### Pipeline lemmas: consuming the fragment sequence -/

/-- Whitespace-only lists are consumed entirely. -/
theorem skipWs_of_all (l : List Char) (h : ∀ c ∈ l, isWsChar c = true) :
    skipWs l = [] := by
  have := skipWs_ws_append l [] h
  simpa using this

/-- An equality fragment body: column, equals sign, quoted value. -/
def AndFragP (A : List Char) : Prop :=
  A = [] ∨ ∃ col v,
    A = "AND ".toList ++ (col ++ (Char.ofNat 61 :: squote :: (v ++ [squote])))
    ∧ col ≠ [] ∧ (∀ c ∈ col, isIdentChar c = true) ∧ (∀ c ∈ v, ¬ c = squote)

/-- A tail on which no AND conjunct can start, under any whitespace prefix. -/
def TailNoClause (tail : List Char) : Prop :=
  ∀ ws, (∀ c ∈ ws, isWsChar c = true) → parseAndClause (skipWs (ws ++ tail)) = none

/-- Skipping whitespace exposes an AND fragment head. -/
theorem skipWs_ws_then_and (ws Z : List Char) (hws : ∀ c ∈ ws, isWsChar c = true) :
    skipWs (ws ++ ("AND ".toList ++ Z)) = "AND ".toList ++ Z := by
  rw [skipWs_ws_append ws _ hws]
  have e : "AND ".toList ++ Z = Char.ofNat 65 :: ("ND ".toList ++ Z) := rfl
  rw [e, skipWs_cons_of_not _ (by decide)]

/-- A nonempty whitespace-led tail hosts no AND conjunct when its content
    hosts none. -/
theorem tailNoClause_ws (ws tail : List Char) (hws : ∀ c ∈ ws, isWsChar c = true)
    (h : TailNoClause tail) : TailNoClause (ws ++ tail) := by
  intro ws2 hws2
  have e : ws2 ++ (ws ++ tail) = (ws2 ++ ws) ++ tail := by simp [List.append_assoc]
  rw [e]
  exact h (ws2 ++ ws) (ws_append hws2 hws)

/-- Consuming one equality fragment after a whitespace block. -/
theorem tryAnd_consume (ws col v rest : List Char)
    (hws : ∀ c ∈ ws, isWsChar c = true) (hcol : col ≠ [])
    (hcolI : ∀ c ∈ col, isIdentChar c = true) (hv : ∀ c ∈ v, ¬ c = squote) :
    tryParse parseAndClause
      (ws ++ (("AND ".toList ++ (col ++ (Char.ofNat 61 :: squote :: (v ++ [squote])))) ++ rest))
      = rest := by
  apply tryParse_some
  have e : (("AND ".toList ++ (col ++ (Char.ofNat 61 :: squote :: (v ++ [squote])))) ++ rest)
      = "AND ".toList ++ (col ++ (Char.ofNat 61 :: squote :: (v ++ squote :: rest))) := by
    simp [List.append_assoc]
  rw [e, skipWs_ws_then_and ws _ hws]
  exact parseAndClause_frag col v rest hcol hcolI hv

/-- A failing conjunct attempt leaves the input unchanged. -/
theorem tryAnd_skip (cs : List Char) (h : TailNoClause cs) :
    tryParse parseAndClause cs = cs := by
  apply tryParse_none
  have := h [] (by intro c hc; simp at hc)
  simpa using this

/-- Three conjunct attempts on a fragment sequence reduce it to a whitespace
    block before the tail. -/
theorem threeTries (ws0 ws1 ws2 A B tail : List Char)
    (hws0 : ∀ c ∈ ws0, isWsChar c = true) (hws1 : ∀ c ∈ ws1, isWsChar c = true)
    (hws2 : ∀ c ∈ ws2, isWsChar c = true)
    (hA : AndFragP A) (hB : AndFragP B) (htail : TailNoClause tail) :
    ∃ ws, (∀ c ∈ ws, isWsChar c = true) ∧
      tryParse parseAndClause (tryParse parseAndClause (tryParse parseAndClause
        (ws0 ++ (A ++ (ws1 ++ (B ++ (ws2 ++ tail))))))) = ws ++ tail := by
  have htail2 : TailNoClause (ws2 ++ tail) := tailNoClause_ws ws2 tail hws2 htail
  rcases hA with rfl | ⟨colA, vA, rfl, hcA, hciA, hvA⟩ <;>
    rcases hB with rfl | ⟨colB, vB, rfl, hcB, hciB, hvB⟩
  · -- both fragments absent
    refine ⟨ws0 ++ (ws1 ++ ws2), ws_append hws0 (ws_append hws1 hws2), ?_⟩
    have e : ws0 ++ ([] ++ (ws1 ++ ([] ++ (ws2 ++ tail))))
        = (ws0 ++ (ws1 ++ ws2)) ++ tail := by simp [List.append_assoc]
    rw [e]
    have hno : TailNoClause ((ws0 ++ (ws1 ++ ws2)) ++ tail) := by
      have : TailNoClause (ws0 ++ (ws1 ++ (ws2 ++ tail))) :=
        tailNoClause_ws _ _ hws0 (tailNoClause_ws _ _ hws1 htail2)
      simpa [List.append_assoc] using this
    rw [tryAnd_skip _ hno, tryAnd_skip _ hno, tryAnd_skip _ hno]
  · -- only the second fragment present
    refine ⟨ws2, hws2, ?_⟩
    have e : ws0 ++ ([] ++ (ws1 ++
        (("AND ".toList ++ (colB ++ (Char.ofNat 61 :: squote :: (vB ++ [squote])))) ++ (ws2 ++ tail))))
        = (ws0 ++ ws1) ++
          (("AND ".toList ++ (colB ++ (Char.ofNat 61 :: squote :: (vB ++ [squote])))) ++ (ws2 ++ tail)) := by
      simp [List.append_assoc]
    rw [e, tryAnd_consume _ _ _ _ (ws_append hws0 hws1) hcB hciB hvB]
    rw [tryAnd_skip _ htail2, tryAnd_skip _ htail2]
  · -- only the first fragment present
    refine ⟨ws1 ++ ws2, ws_append hws1 hws2, ?_⟩
    have e : ws0 ++
        (("AND ".toList ++ (colA ++ (Char.ofNat 61 :: squote :: (vA ++ [squote])))) ++
          (ws1 ++ ([] ++ (ws2 ++ tail))))
        = ws0 ++
        (("AND ".toList ++ (colA ++ (Char.ofNat 61 :: squote :: (vA ++ [squote])))) ++
          ((ws1 ++ ws2) ++ tail)) := by
      simp [List.append_assoc]
    rw [e, tryAnd_consume _ _ _ _ hws0 hcA hciA hvA]
    have hno : TailNoClause ((ws1 ++ ws2) ++ tail) := by
      have : TailNoClause (ws1 ++ (ws2 ++ tail)) := tailNoClause_ws _ _ hws1 htail2
      simpa [List.append_assoc] using this
    rw [tryAnd_skip _ hno, tryAnd_skip _ hno]
  · -- both fragments present
    refine ⟨ws2, hws2, ?_⟩
    rw [tryAnd_consume _ _ _ _ hws0 hcA hciA hvA]
    rw [tryAnd_consume _ _ _ _ hws1 hcB hciB hvB]
    rw [tryAnd_skip _ htail2]

/-- Skipping whitespace over a block stops at a non-whitespace character. -/
theorem skipWs_ws_then_cons (ws : List Char) (c : Char) (cs : List Char)
    (hws : ∀ x ∈ ws, isWsChar x = true) (hc : isWsChar c = false) :
    skipWs (ws ++ (c :: cs)) = c :: cs := by
  rw [skipWs_ws_append ws _ hws]
  exact skipWs_cons_of_not cs hc

/-- After the conjunct phase, the ORDER BY, LIMIT and OFFSET phases accept a
    whitespace block followed by any pagination fragment and the closing
    separator. -/
theorem afterClauses_valid (ws : List Char) (hws : ∀ c ∈ ws, isWsChar c = true)
    (l o : Int) :
    (skipWs (tryParse (parseKwNumber ("OFFSET".toList))
      (tryParse (parseKwNumber ("LIMIT".toList))
        (tryParse parseOrderBy
          (ws ++ ((FormatLimitOffset l o).toList ++ ntL)))))).isEmpty = true := by
  by_cases hlo : l > 0 ∧ o > 0
  · -- LIMIT n OFFSET m
    have hdl : (intDecimal l).toList = natDecimal l.toNat := intDecimal_pos l hlo.1
    have hdo : (intDecimal o).toList = natDecimal o.toNat := intDecimal_pos o hlo.2
    have hcanon : (FormatLimitOffset l o).toList ++ ntL
        = "LIMIT".toList ++ ([Char.ofNat 32] ++ ((intDecimal l).toList ++
            ([Char.ofNat 32] ++ ("OFFSET".toList ++ ([Char.ofNat 32] ++
              ((intDecimal o).toList ++ ntL)))))) := by
      rw [FormatLimitOffset, if_pos hlo]
      have e1 : ("LIMIT " : String).toList = "LIMIT".toList ++ [Char.ofNat 32] := rfl
      have e2 : (" OFFSET " : String).toList
          = [Char.ofNat 32] ++ ("OFFSET".toList ++ [Char.ofNat 32]) := rfl
      simp only [toList_append, e1, e2, List.append_assoc]
    have hcons : "LIMIT".toList ++ ([Char.ofNat 32] ++ ((intDecimal l).toList ++
            ([Char.ofNat 32] ++ ("OFFSET".toList ++ ([Char.ofNat 32] ++
              ((intDecimal o).toList ++ ntL))))))
        = Char.ofNat 76 :: ("IMIT".toList ++ ([Char.ofNat 32] ++ ((intDecimal l).toList ++
            ([Char.ofNat 32] ++ ("OFFSET".toList ++ ([Char.ofNat 32] ++
              ((intDecimal o).toList ++ ntL))))))) := rfl
    have hskip : skipWs (ws ++ ((FormatLimitOffset l o).toList ++ ntL))
        = "LIMIT".toList ++ ([Char.ofNat 32] ++ ((intDecimal l).toList ++
            ([Char.ofNat 32] ++ ("OFFSET".toList ++ ([Char.ofNat 32] ++
              ((intDecimal o).toList ++ ntL)))))) := by
      rw [hcanon, hcons]
      exact skipWs_ws_then_cons ws _ _ hws (by decide)
    have h1 : tryParse parseOrderBy (ws ++ ((FormatLimitOffset l o).toList ++ ntL))
        = ws ++ ((FormatLimitOffset l o).toList ++ ntL) := by
      apply tryParse_none
      rw [hskip, hcons]
      exact parseOrderBy_cons_ne _ _ (by decide)
    have h2 : tryParse (parseKwNumber ("LIMIT".toList))
        (ws ++ ((FormatLimitOffset l o).toList ++ ntL))
        = [Char.ofNat 32] ++ ("OFFSET".toList ++ ([Char.ofNat 32] ++
            ((intDecimal o).toList ++ ntL))) := by
      apply tryParse_some
      rw [hskip]
      apply parseKwNumber_frag
      · intro c hc; simp at hc; rw [hc]; decide
      · rw [hdl]; exact natDecimal_ne_nil _
      · rw [hdl]; exact natDecimal_digits _
      · show isDigitChar (Char.ofNat 32) = false
        decide
    have h3 : tryParse (parseKwNumber ("OFFSET".toList))
        ([Char.ofNat 32] ++ ("OFFSET".toList ++ ([Char.ofNat 32] ++
            ((intDecimal o).toList ++ ntL)))) = ntL := by
      apply tryParse_some
      have hsk2 : skipWs ([Char.ofNat 32] ++ ("OFFSET".toList ++ ([Char.ofNat 32] ++
          ((intDecimal o).toList ++ ntL))))
          = "OFFSET".toList ++ ([Char.ofNat 32] ++ ((intDecimal o).toList ++ ntL)) := by
        have e : "OFFSET".toList ++ ([Char.ofNat 32] ++ ((intDecimal o).toList ++ ntL))
            = Char.ofNat 79 :: ("FFSET".toList ++ ([Char.ofNat 32] ++
                ((intDecimal o).toList ++ ntL))) := rfl
        rw [e]
        exact skipWs_ws_then_cons [Char.ofNat 32] _ _ (by decide) (by decide)
      rw [hsk2]
      apply parseKwNumber_frag
      · intro c hc; simp at hc; rw [hc]; decide
      · rw [hdo]; exact natDecimal_ne_nil _
      · rw [hdo]; exact natDecimal_digits _
      · show isDigitChar (Char.ofNat 10) = false
        decide
    rw [h1, h2, h3, skipWs_of_all ntL ntL_ws]
    rfl
  · by_cases hl : l > 0
    · -- LIMIT n only
      have hdl : (intDecimal l).toList = natDecimal l.toNat := intDecimal_pos l hl
      have hcanon : (FormatLimitOffset l o).toList ++ ntL
          = "LIMIT".toList ++ ([Char.ofNat 32] ++ ((intDecimal l).toList ++ ntL)) := by
        rw [FormatLimitOffset, if_neg hlo, if_pos hl]
        have e1 : ("LIMIT " : String).toList = "LIMIT".toList ++ [Char.ofNat 32] := rfl
        simp only [toList_append, e1, List.append_assoc]
      have hcons : "LIMIT".toList ++ ([Char.ofNat 32] ++ ((intDecimal l).toList ++ ntL))
          = Char.ofNat 76 :: ("IMIT".toList ++ ([Char.ofNat 32] ++
              ((intDecimal l).toList ++ ntL))) := rfl
      have hskip : skipWs (ws ++ ((FormatLimitOffset l o).toList ++ ntL))
          = "LIMIT".toList ++ ([Char.ofNat 32] ++ ((intDecimal l).toList ++ ntL)) := by
        rw [hcanon, hcons]
        exact skipWs_ws_then_cons ws _ _ hws (by decide)
      have h1 : tryParse parseOrderBy (ws ++ ((FormatLimitOffset l o).toList ++ ntL))
          = ws ++ ((FormatLimitOffset l o).toList ++ ntL) := by
        apply tryParse_none
        rw [hskip, hcons]
        exact parseOrderBy_cons_ne _ _ (by decide)
      have h2 : tryParse (parseKwNumber ("LIMIT".toList))
          (ws ++ ((FormatLimitOffset l o).toList ++ ntL)) = ntL := by
        apply tryParse_some
        rw [hskip]
        apply parseKwNumber_frag
        · intro c hc; simp at hc; rw [hc]; decide
        · rw [hdl]; exact natDecimal_ne_nil _
        · rw [hdl]; exact natDecimal_digits _
        · show isDigitChar (Char.ofNat 10) = false
          decide
      have h3 : tryParse (parseKwNumber ("OFFSET".toList)) ntL = ntL := by
        apply tryParse_none
        rw [skipWs_of_all ntL ntL_ws]
        rfl
      rw [h1, h2, h3, skipWs_of_all ntL ntL_ws]
      rfl
    · by_cases ho : o > 0
      · -- OFFSET m only
        have hdo : (intDecimal o).toList = natDecimal o.toNat := intDecimal_pos o ho
        have hcanon : (FormatLimitOffset l o).toList ++ ntL
            = "OFFSET".toList ++ ([Char.ofNat 32] ++ ((intDecimal o).toList ++ ntL)) := by
          rw [FormatLimitOffset, if_neg hlo, if_neg hl, if_pos ho]
          have e1 : ("OFFSET " : String).toList = "OFFSET".toList ++ [Char.ofNat 32] := rfl
          simp only [toList_append, e1, List.append_assoc]
        have hcons : "OFFSET".toList ++ ([Char.ofNat 32] ++ ((intDecimal o).toList ++ ntL))
            = Char.ofNat 79 :: (Char.ofNat 70 :: ("FSET".toList ++ ([Char.ofNat 32] ++
                ((intDecimal o).toList ++ ntL)))) := rfl
        have hskip : skipWs (ws ++ ((FormatLimitOffset l o).toList ++ ntL))
            = "OFFSET".toList ++ ([Char.ofNat 32] ++ ((intDecimal o).toList ++ ntL)) := by
          rw [hcanon, hcons]
          exact skipWs_ws_then_cons ws _ _ hws (by decide)
        have h1 : tryParse parseOrderBy (ws ++ ((FormatLimitOffset l o).toList ++ ntL))
            = ws ++ ((FormatLimitOffset l o).toList ++ ntL) := by
          apply tryParse_none
          rw [hskip, hcons]
          exact parseOrderBy_second_ne _ _ (by decide)
        have h2 : tryParse (parseKwNumber ("LIMIT".toList))
            (ws ++ ((FormatLimitOffset l o).toList ++ ntL))
            = ws ++ ((FormatLimitOffset l o).toList ++ ntL) := by
          apply tryParse_none
          rw [hskip, hcons]
          exact parseKwNumber_cons_ne _ _ _ _ (by decide)
        have h3 : tryParse (parseKwNumber ("OFFSET".toList))
            (ws ++ ((FormatLimitOffset l o).toList ++ ntL)) = ntL := by
          apply tryParse_some
          rw [hskip]
          apply parseKwNumber_frag
          · intro c hc; simp at hc; rw [hc]; decide
          · rw [hdo]; exact natDecimal_ne_nil _
          · rw [hdo]; exact natDecimal_digits _
          · show isDigitChar (Char.ofNat 10) = false
            decide
        rw [h1, h2, h3, skipWs_of_all ntL ntL_ws]
        rfl
      · -- no pagination fragment
        have hcanon : (FormatLimitOffset l o).toList ++ ntL = ntL := by
          rw [FormatLimitOffset, if_neg hlo, if_neg hl, if_neg ho]
          rfl
        have hall : ∀ c ∈ ws ++ ((FormatLimitOffset l o).toList ++ ntL), isWsChar c = true := by
          rw [hcanon]
          exact ws_append hws ntL_ws
        have hskip : skipWs (ws ++ ((FormatLimitOffset l o).toList ++ ntL)) = [] :=
          skipWs_of_all _ hall
        have h1 : tryParse parseOrderBy (ws ++ ((FormatLimitOffset l o).toList ++ ntL))
            = ws ++ ((FormatLimitOffset l o).toList ++ ntL) := by
          apply tryParse_none; rw [hskip]; rfl
        have h2 : tryParse (parseKwNumber ("LIMIT".toList))
            (ws ++ ((FormatLimitOffset l o).toList ++ ntL))
            = ws ++ ((FormatLimitOffset l o).toList ++ ntL) := by
          apply tryParse_none; rw [hskip]; rfl
        have h3 : tryParse (parseKwNumber ("OFFSET".toList))
            (ws ++ ((FormatLimitOffset l o).toList ++ ntL))
            = ws ++ ((FormatLimitOffset l o).toList ++ ntL) := by
          apply tryParse_none; rw [hskip]; rfl
        rw [h1, h2, h3, hskip]
        rfl

/-- No AND conjunct can start at a pagination fragment (or at the closing
    separator). -/
theorem pagination_tailNoClause (l o : Int) :
    TailNoClause ((FormatLimitOffset l o).toList ++ ntL) := by
  intro ws hws
  by_cases hlo : l > 0 ∧ o > 0
  · rw [FormatLimitOffset, if_pos hlo]
    have e : ("LIMIT " ++ intDecimal l ++ " OFFSET " ++ intDecimal o).toList ++ ntL
        = Char.ofNat 76 :: (("IMIT ".toList ++ ((intDecimal l).toList ++
            (" OFFSET ".toList ++ (intDecimal o).toList))) ++ ntL) := by
      simp only [toList_append, List.append_assoc]
      rfl
    rw [e, skipWs_ws_then_cons ws _ _ hws (by decide)]
    exact parseAndClause_cons_ne _ _ (by decide)
  · by_cases hl : l > 0
    · rw [FormatLimitOffset, if_neg hlo, if_pos hl]
      have e : ("LIMIT " ++ intDecimal l).toList ++ ntL
          = Char.ofNat 76 :: (("IMIT ".toList ++ (intDecimal l).toList) ++ ntL) := by
        simp only [toList_append, List.append_assoc]
        rfl
      rw [e, skipWs_ws_then_cons ws _ _ hws (by decide)]
      exact parseAndClause_cons_ne _ _ (by decide)
    · by_cases ho : o > 0
      · rw [FormatLimitOffset, if_neg hlo, if_neg hl, if_pos ho]
        have e : ("OFFSET " ++ intDecimal o).toList ++ ntL
            = Char.ofNat 79 :: (("FFSET ".toList ++ (intDecimal o).toList) ++ ntL) := by
          simp only [toList_append, List.append_assoc]
          rfl
        rw [e, skipWs_ws_then_cons ws _ _ hws (by decide)]
        exact parseAndClause_cons_ne _ _ (by decide)
      · rw [FormatLimitOffset, if_neg hlo, if_neg hl, if_neg ho]
        have e : ("" : String).toList ++ ntL = ntL := rfl
        rw [e, skipWs_of_all _ (ws_append hws ntL_ws)]
        exact parseAndClause_nil

/-- The integer equality fragment is empty or a well-formed conjunct. -/
theorem FormatAndInt_fragP (col : String) (i : Int) (hcol : col.toList ≠ [])
    (hci : ∀ c ∈ col.toList, isIdentChar c = true) :
    AndFragP ((FormatAndInt col i).toList) := by
  by_cases h : i = 0
  · left
    rw [FormatAndInt, if_neg (by simp [h])]
    rfl
  · right
    refine ⟨col.toList, (intDecimal i).toList, ?_, hcol, hci, intDecimal_no_quote i⟩
    rw [FormatAndInt, if_pos h]
    have e61 : ("=" : String).toList = [Char.ofNat 61] := rfl
    have esq : squoteStr.toList = [squote] := rfl
    simp only [toList_append, e61, esq, List.append_assoc, List.cons_append,
      List.singleton_append, List.nil_append]

/-- The string equality fragment is empty or, for quote-free values, a
    well-formed conjunct. -/
theorem FormatAnd_fragP (col : String) (v : String) (hcol : col.toList ≠ [])
    (hci : ∀ c ∈ col.toList, isIdentChar c = true)
    (hv : ∀ c ∈ v.toList, ¬ c = squote) :
    AndFragP ((FormatAnd col v).toList) := by
  by_cases h : v = ""
  · left
    rw [FormatAnd, if_neg (by simp [h])]
    rfl
  · right
    refine ⟨col.toList, v.toList, ?_, hcol, hci, hv⟩
    rw [FormatAnd, if_pos h]
    have e61 : ("=" : String).toList = [Char.ofNat 61] := rfl
    have esq : squoteStr.toList = [squote] := rfl
    simp only [toList_append, e61, esq, List.append_assoc, List.cons_append,
      List.singleton_append, List.nil_append]

/-- With no sort column, the product List query tail is valid under the
    clause grammar, for every combination of the integer filters. -/
theorem productTail_valid (f : ProductFilter) (hs : f.«Sort» = "") :
    sqlTailValid (productListQueryTail f) = true := by
  have htl : (productListQueryTail f).toList
      = ntL ++ (ntL ++ ((FormatAndInt "category_id" f.CategoryID).toList ++
          (ntL ++ ((FormatAndInt "id" f.ID).toList ++
            (ntL ++ ((FormatLimitOffset f.Limit f.Offset).toList ++ ntL)))))) := by
    rw [productListQueryTail, hs]
    have hFS : FormatSort "" = "" := by simp [FormatSort]
    rw [hFS]
    simp only [toList_append, List.append_assoc, ntL]
    rfl
  obtain ⟨ws, hws, hred⟩ := threeTries (ntL ++ ntL) ntL ntL
    ((FormatAndInt "category_id" f.CategoryID).toList)
    ((FormatAndInt "id" f.ID).toList)
    ((FormatLimitOffset f.Limit f.Offset).toList ++ ntL)
    (ws_append ntL_ws ntL_ws) ntL_ws ntL_ws
    (FormatAndInt_fragP _ _ (by decide) (by decide))
    (FormatAndInt_fragP _ _ (by decide) (by decide))
    (pagination_tailNoClause f.Limit f.Offset)
  simp only [List.append_assoc] at hred
  simp only [sqlTailValid, sqlTailValidL, htl, hred]
  exact afterClauses_valid ws hws f.Limit f.Offset

/-- With no sort column and a quote-free name value, the category List query
    tail is valid under the clause grammar. -/
theorem categoryTail_valid (f : CategoryFilter) (hs : f.«Sort» = "")
    (hn : ∀ c ∈ f.Name.toList, ¬ c = squote) :
    sqlTailValid (categoryListQueryTail f) = true := by
  have htl : (categoryListQueryTail f).toList
      = ntL ++ (ntL ++ ((FormatAnd "name" f.Name).toList ++
          (ntL ++ ((FormatAndInt "id" f.ID).toList ++
            (ntL ++ ((FormatLimitOffset f.Limit f.Offset).toList ++ ntL)))))) := by
    rw [categoryListQueryTail, hs]
    have hFS : FormatSort "" = "" := by simp [FormatSort]
    rw [hFS]
    simp only [toList_append, List.append_assoc, ntL]
    rfl
  obtain ⟨ws, hws, hred⟩ := threeTries (ntL ++ ntL) ntL ntL
    ((FormatAnd "name" f.Name).toList)
    ((FormatAndInt "id" f.ID).toList)
    ((FormatLimitOffset f.Limit f.Offset).toList ++ ntL)
    (ws_append ntL_ws ntL_ws) ntL_ws ntL_ws
    (FormatAnd_fragP _ _ (by decide) (by decide) hn)
    (FormatAndInt_fragP _ _ (by decide) (by decide))
    (pagination_tailNoClause f.Limit f.Offset)
  simp only [List.append_assoc] at hred
  simp only [sqlTailValid, sqlTailValidL, htl, hred]
  exact afterClauses_valid ws hws f.Limit f.Offset

/-- With no sort column, the cart List query tail is valid under the clause
    grammar, for every combination of the integer filters. -/
theorem cartTail_valid (f : CartFilter) (hs : f.«Sort» = "") :
    sqlTailValid (cartListQueryTail f) = true := by
  have htl : (cartListQueryTail f).toList
      = ntL ++ (ntL ++ ((FormatAndInt "id" f.ID).toList ++
          (ntL ++ ((FormatAndInt "user_id" f.UserID).toList ++
            (ntL ++ ((FormatLimitOffset f.Limit f.Offset).toList ++ ntL)))))) := by
    rw [cartListQueryTail, hs]
    have hFS : FormatSort "" = "" := by simp [FormatSort]
    rw [hFS]
    simp only [toList_append, List.append_assoc, ntL]
    rfl
  obtain ⟨ws, hws, hred⟩ := threeTries (ntL ++ ntL) ntL ntL
    ((FormatAndInt "id" f.ID).toList)
    ((FormatAndInt "user_id" f.UserID).toList)
    ((FormatLimitOffset f.Limit f.Offset).toList ++ ntL)
    (ws_append ntL_ws ntL_ws) ntL_ws ntL_ws
    (FormatAndInt_fragP _ _ (by decide) (by decide))
    (FormatAndInt_fragP _ _ (by decide) (by decide))
    (pagination_tailNoClause f.Limit f.Offset)
  simp only [List.append_assoc] at hred
  simp only [sqlTailValid, sqlTailValidL, htl, hred]
  exact afterClauses_valid ws hws f.Limit f.Offset

/-! ### Emptiness of each fragment builder -/

/-- Appending to a string with nonempty character list stays nonempty. -/
theorem toList_append_ne_nil {s : String} (t : String) (h : s.toList ≠ []) :
    (s ++ t).toList ≠ [] := by
  rw [toList_append]
  intro he
  exact h (List.append_eq_nil.1 he).1

/-- A string whose character list is nonempty is not empty. -/
theorem FormatSort_empty_iff (v : String) : FormatSort v = "" ↔ v = "" := by
  constructor
  · intro h
    by_contra hv
    rw [FormatSort, if_pos hv] at h
    have : ("ORDER BY " ++ v).toList ≠ [] :=
      toList_append_ne_nil v (by decide)
    rw [h] at this
    exact this rfl
  · intro h
    rw [h]
    rfl

/-- FormatAnd is empty exactly on the empty value. -/
theorem FormatAnd_empty_iff (c v : String) : FormatAnd c v = "" ↔ v = "" := by
  constructor
  · intro h
    by_contra hv
    rw [FormatAnd, if_pos hv] at h
    have : (("AND " ++ c ++ "=" ++ squoteStr ++ v) ++ squoteStr).toList ≠ [] := by
      apply toList_append_ne_nil
      apply toList_append_ne_nil
      apply toList_append_ne_nil
      apply toList_append_ne_nil
      apply toList_append_ne_nil
      decide
    rw [h] at this
    exact this rfl
  · intro h
    rw [h]
    rfl

/-- FormatAndOp is empty exactly on the empty value. -/
theorem FormatAndOp_empty_iff (c v : String) : FormatAndOp c v = "" ↔ v = "" := by
  constructor
  · intro h
    by_contra hv
    rw [FormatAndOp, if_pos hv] at h
    have : (("AND " ++ c ++ "=" ++ squoteStr ++ v) ++ squoteStr).toList ≠ [] := by
      apply toList_append_ne_nil
      apply toList_append_ne_nil
      apply toList_append_ne_nil
      apply toList_append_ne_nil
      apply toList_append_ne_nil
      decide
    rw [h] at this
    exact this rfl
  · intro h
    rw [h]
    rfl

/-- FormatAndInt is empty exactly on the zero value. -/
theorem FormatAndInt_empty_iff (c : String) (i : Int) :
    FormatAndInt c i = "" ↔ i = 0 := by
  constructor
  · intro h
    by_contra hi
    rw [FormatAndInt, if_pos hi] at h
    have : (("AND " ++ c ++ "=" ++ squoteStr ++ intDecimal i) ++ squoteStr).toList ≠ [] := by
      apply toList_append_ne_nil
      apply toList_append_ne_nil
      apply toList_append_ne_nil
      apply toList_append_ne_nil
      apply toList_append_ne_nil
      decide
    rw [h] at this
    exact this rfl
  · intro h
    rw [FormatAndInt, if_neg (by simp [h])]

/-- FormatLimitOffset is empty exactly when neither limit nor offset is
    positive. -/
theorem FormatLimitOffset_empty_iff (l o : Int) :
    FormatLimitOffset l o = "" ↔ l ≤ 0 ∧ o ≤ 0 := by
  constructor
  · intro h
    by_cases hlo : l > 0 ∧ o > 0
    · rw [FormatLimitOffset, if_pos hlo] at h
      have : ((("LIMIT " ++ intDecimal l) ++ " OFFSET ") ++ intDecimal o).toList ≠ [] := by
        apply toList_append_ne_nil
        apply toList_append_ne_nil
        apply toList_append_ne_nil
        decide
      rw [h] at this
      exact absurd rfl this
    · by_cases hl : l > 0
      · rw [FormatLimitOffset, if_neg hlo, if_pos hl] at h
        have : ("LIMIT " ++ intDecimal l).toList ≠ [] := by
          apply toList_append_ne_nil
          decide
        rw [h] at this
        exact absurd rfl this
      · by_cases ho : o > 0
        · rw [FormatLimitOffset, if_neg hlo, if_neg hl, if_pos ho] at h
          have : ("OFFSET " ++ intDecimal o).toList ≠ [] := by
            apply toList_append_ne_nil
            decide
          rw [h] at this
          exact absurd rfl this
        · omega
  · intro h
    rw [FormatLimitOffset, if_neg (by omega), if_neg (by omega), if_neg (by omega)]

/-! ### Error model

Raw storage-engine errors (pgconn.PgError with a code and constraint name,
the pgx no-rows sentinel, and opaque failures) and the store-level errors the
resource stores return (the domain error values from the domain package,
errors returned unchanged, and errors wrapped with an fmt.Errorf context
message). -/

/-- A raw storage-engine error as seen by the stores. -/
inductive PgErr where
| pg (code : String) (constraintName : String)
| noRows
| other (msg : String)
deriving DecidableEq

/-- pgerrcode.UniqueViolation. -/
def UniqueViolation : String := "23505"

/-- pgerrcode.ForeignKeyViolation. -/
def ForeignKeyViolation : String := "23503"

/-- Errors returned by the store layer: domain error values, the generic
    store errors, raw errors returned unchanged, and wrapped errors. -/
inductive StoreErr where
| duplicatedProduct
| invalidProductCategory
| noProductsFound
| productConflict
| duplicatedCategory
| noCategoryFound
| categoryConflict
| noCartsFound
| cartInvalidUserID
| cartInvalidProductID
| invalidToken
| noTokenFound
| noSearchResult
| foreignKeyViolation
| sqlNoRows
| goPanic
| raw (e : PgErr)
| wrapped (msg : String) (e : PgErr)
deriving DecidableEq

/-! ### Entities, from the domain package -/

/-- Product model, from the domain package. -/
structure Product where
  ID : Int := 0
  Name : String := ""
  Description : String := ""
  CategoryID : Int := 0
  Price : Int := 0
  Quantity : Int := 0
  Version : Int := 0
deriving DecidableEq

/-- Category model, from the domain package. -/
structure Category where
  ID : Int := 0
  Name : String := ""
  Description : String := ""
  Version : Int := 0
deriving DecidableEq

/-- Partial category update for PATCH requests, from the domain package. -/
structure CategoryUpdate where
  Name : Option String := none
  Description : Option String := none
  Version : Int := 0
deriving DecidableEq

/-- Cart model, from the domain package. -/
structure Cart where
  ID : Int := 0
  ProductID : Int := 0
  Quantity : Int := 0
  UserID : Int := 0
deriving DecidableEq

/-- User model, from the domain package. -/
structure User where
  ID : Int := 0
  Email : String := ""
  Password : String := ""
deriving DecidableEq

/-- Token model, from the domain package; the digest is modelled as a string
    and the expiry instant as an integer timestamp. -/
structure Token where
  Hashed : String := ""
  UserID : Int := 0
  Expiry : Int := 0
deriving DecidableEq

/-- Search hit, from the domain package: a struct holding an optional product
    and an optional category (the source spells the field Prodcuts). -/
structure Search where
  Prodcuts : Option Product := none
  Categories : Option Category := none
deriving DecidableEq

/-! ### Constraint-violation translation, one function per error path -/

/-- Error translation in ProductStore.Create, from src/postgres/product.go:
    the switch on the pg error code with the constraint-name guards; any
    other error is returned unchanged. -/
def productCreateTranslate : PgErr → StoreErr
| .pg code constraintName =>
  if code = ForeignKeyViolation ∧ constraintName = "products_category_id_fkey" then
    .invalidProductCategory
  else if code = UniqueViolation ∧ constraintName = "products_name_key" then
    .duplicatedProduct
  else .raw (.pg code constraintName)
| e => .raw e

/-- Error translation in ProductStore.Update, from src/postgres/product.go:
    as for Create, then the no-rows check mapping to the conflict error. -/
def productUpdateTranslate : PgErr → StoreErr
| .pg code constraintName =>
  if code = ForeignKeyViolation ∧ constraintName = "products_category_id_fkey" then
    .invalidProductCategory
  else if code = UniqueViolation ∧ constraintName = "products_name_key" then
    .duplicatedProduct
  else .raw (.pg code constraintName)
| .noRows => .productConflict
| .other msg => .raw (.other msg)

/-- Error translation in categoryStore.Create, from src/postgres/category.go. -/
def categoryCreateTranslate : PgErr → StoreErr
| .pg code constraintName =>
  if code = UniqueViolation ∧ constraintName = "categories_name_key" then
    .duplicatedCategory
  else .raw (.pg code constraintName)
| e => .raw e

/-- Error translation in categoryStore.Update, from src/postgres/category.go:
    the unique-name guard, the no-rows conflict check, and otherwise a
    wrapped scan error. -/
def categoryUpdateTranslate : PgErr → StoreErr
| .pg code constraintName =>
  if code = UniqueViolation ∧ constraintName = "categories_name_key" then
    .duplicatedCategory
  else .wrapped "failed to scan row of category" (.pg code constraintName)
| .noRows => .categoryConflict
| .other msg => .wrapped "failed to scan row of category" (.other msg)

/-- Error translation in cartStore.Create, from the cart store file
    (src/unnamed/part_005). -/
def cartCreateTranslate : PgErr → StoreErr
| .pg code constraintName =>
  if code = ForeignKeyViolation ∧ constraintName = "carts_user_id_fkey" then
    .cartInvalidUserID
  else if code = ForeignKeyViolation ∧ constraintName = "carts_product_id_fkey" then
    .cartInvalidProductID
  else .raw (.pg code constraintName)
| e => .raw e

/-- Error translation in TokenStore.Create, from src/postgres/token.go: any
    foreign-key violation (the constraint name is not inspected) becomes the
    generic store foreign-key error, and every other failure is wrapped in an
    insert-context message. -/
def tokenCreateTranslate : PgErr → StoreErr
| .pg code constraintName =>
  if code = ForeignKeyViolation then .foreignKeyViolation
  else .wrapped "failed to insert into tokens" (.pg code constraintName)
| e => .wrapped "failed to insert into tokens" e

/-! ### Storage-engine statement semantics

Modelled from the spec: the engine executes the single statements built by
the stores.  Tables are lists of rows in storage order; serial id generation
takes the next id as an argument; the constraints come from the migration
files (unique names, foreign keys, version default 1). -/

/-- Modelled from the spec: the INSERT in ProductStore.Create against the
    products table (name UNIQUE products_name_key, category_id references
    categories via products_category_id_fkey, version defaults to 1), with
    RETURNING id and version. -/
def productInsertStmt (cats : List Category) (tbl : List Product) (nextId : Int)
    (p : Product) : Except PgErr (List Product × Int × Int) :=
  if ∃ r ∈ tbl, r.Name = p.Name then .error (.pg UniqueViolation "products_name_key")
  else if ¬ ∃ c ∈ cats, c.ID = p.CategoryID then
    .error (.pg ForeignKeyViolation "products_category_id_fkey")
  else
    let row : Product :=
      { ID := nextId
        Name := p.Name
        Description := p.Description
        CategoryID := p.CategoryID
        Price := p.Price
        Quantity := p.Quantity
        Version := 1 }
    .ok (tbl ++ [row], nextId, 1)

/-- Modelled from the spec: the UPDATE in ProductStore.Update — set all
    fields, bump the version, WHERE id and version both match; RETURNING the
    new version of the matched row, or the no-rows sentinel. -/
def productUpdateStmt (cats : List Category) (tbl : List Product) (p : Product) :
    Except PgErr (List Product × Int) :=
  match tbl.find? (fun r => r.ID == p.ID && r.Version == p.Version) with
  | none => .error .noRows
  | some r =>
    if ∃ q ∈ tbl, ¬ q.ID = r.ID ∧ q.Name = p.Name then
      .error (.pg UniqueViolation "products_name_key")
    else if ¬ ∃ c ∈ cats, c.ID = p.CategoryID then
      .error (.pg ForeignKeyViolation "products_category_id_fkey")
    else
      .ok (tbl.map (fun q =>
        if q.ID = p.ID ∧ q.Version = p.Version then
          { ID := q.ID, Name := p.Name, Description := p.Description,
            CategoryID := p.CategoryID, Price := p.Price, Quantity := p.Quantity,
            Version := q.Version + 1 }
        else q), r.Version + 1)

/-- Modelled from the spec: the INSERT in categoryStore.Create (name UNIQUE
    categories_name_key, version defaults to 1), RETURNING id and version. -/
def categoryInsertStmt (tbl : List Category) (nextId : Int) (c : Category) :
    Except PgErr (List Category × Int × Int) :=
  if ∃ r ∈ tbl, r.Name = c.Name then .error (.pg UniqueViolation "categories_name_key")
  else
    let row : Category :=
      { ID := nextId
        Name := c.Name
        Description := c.Description
        Version := 1 }
    .ok (tbl ++ [row], nextId, 1)

/-- Modelled from the spec: the UPDATE in categoryStore.Update — COALESCE
    each optional field, bump the version, WHERE id and version both match;
    RETURNING the updated row, or the no-rows sentinel. -/
def categoryUpdateStmt (tbl : List Category) (ID : Int) (input : CategoryUpdate) :
    Except PgErr (List Category × Category) :=
  match tbl.find? (fun r => r.ID == ID && r.Version == input.Version) with
  | none => .error .noRows
  | some r =>
    let newName := input.Name.getD r.Name
    if ∃ q ∈ tbl, ¬ q.ID = r.ID ∧ q.Name = newName then
      .error (.pg UniqueViolation "categories_name_key")
    else
      .ok (tbl.map (fun q =>
        if q.ID = ID ∧ q.Version = input.Version then
          { ID := q.ID, Name := input.Name.getD q.Name,
            Description := input.Description.getD q.Description,
            Version := q.Version + 1 }
        else q),
        { ID := r.ID, Name := newName,
          Description := input.Description.getD r.Description,
          Version := r.Version + 1 })

/-- Modelled from the spec: the INSERT in TokenStore.Create (user_id
    references users via the auto-named tokens_user_id_fkey). -/
def tokenInsertStmt (users : List User) (tokens : List Token) (t : Token) :
    Except PgErr (List Token) :=
  if ¬ ∃ u ∈ users, u.ID = t.UserID then
    .error (.pg ForeignKeyViolation "tokens_user_id_fkey")
  else .ok (tokens ++ [t])

/-- Modelled from the spec: the INSERT in cartStore.Create (user_id and
    product_id foreign keys), RETURNING id. -/
def cartInsertStmt (users : List User) (prods : List Product) (carts : List Cart)
    (nextId : Int) (c : Cart) : Except PgErr (List Cart × Int) :=
  if ¬ ∃ u ∈ users, u.ID = c.UserID then
    .error (.pg ForeignKeyViolation "carts_user_id_fkey")
  else if ¬ ∃ p ∈ prods, p.ID = c.ProductID then
    .error (.pg ForeignKeyViolation "carts_product_id_fkey")
  else .ok (carts ++ [{ c with ID := nextId }], nextId)

/-! ### Store operations

Each operation carries the table state explicitly: a returned table together
with the Go return values.  A failed operation rolls back, returning the
original table (matching the deferred rollback / single-statement atomicity
of the source). -/

/-- ProductStore.Create, from src/postgres/product.go. -/
protected def ProductStore.Create (cats : List Category) (tbl : List Product) (nextId : Int)
    (product : Product) : List Product × Except StoreErr Product :=
  match productInsertStmt cats tbl nextId product with
  | .ok (tbl2, id, ver) => (tbl2, .ok { product with ID := id, Version := ver })
  | .error e => (tbl, .error (productCreateTranslate e))

/-- ProductStore.Update, from src/postgres/product.go. -/
protected def ProductStore.Update (cats : List Category) (tbl : List Product)
    (product : Product) : List Product × Except StoreErr Product :=
  match productUpdateStmt cats tbl product with
  | .ok (tbl2, ver) => (tbl2, .ok { product with Version := ver })
  | .error e => (tbl, .error (productUpdateTranslate e))

/-- categoryStore.Create, from src/postgres/category.go. -/
protected def categoryStore.Create (tbl : List Category) (nextId : Int)
    (category : Category) : List Category × Except StoreErr Category :=
  match categoryInsertStmt tbl nextId category with
  | .ok (tbl2, id, ver) => (tbl2, .ok { category with ID := id, Version := ver })
  | .error e => (tbl, .error (categoryCreateTranslate e))

/-- categoryStore.Update, from src/postgres/category.go. -/
protected def categoryStore.Update (tbl : List Category) (ID : Int) (input : CategoryUpdate) :
    List Category × Except StoreErr Category :=
  match categoryUpdateStmt tbl ID input with
  | .ok (tbl2, category) => (tbl2, .ok category)
  | .error e => (tbl, .error (categoryUpdateTranslate e))

/-- TokenStore.Create, from src/postgres/token.go. -/
protected def TokenStore.Create (users : List User) (tokens : List Token) (token : Token) :
    List Token × Option StoreErr :=
  match tokenInsertStmt users tokens token with
  | .ok tbl2 => (tbl2, none)
  | .error e => (tokens, some (tokenCreateTranslate e))

/-- cartStore.Create, from the cart store file (src/unnamed/part_005). -/
protected def cartStore.Create (users : List User) (prods : List Product) (carts : List Cart)
    (nextId : Int) (cart : Cart) : List Cart × Except StoreErr Cart :=
  match cartInsertStmt users prods carts nextId cart with
  | .ok (tbl2, id) => (tbl2, .ok { cart with ID := id })
  | .error e => (carts, .error (cartCreateTranslate e))

/-! ### List / GetByID

The List operations execute the query they build.  The engine first parses
the statement: the clause recogniser sqlTailValid stands in for the engine
parser, so the malformed tails the stores can build (a sort fragment placed
before the equality conjuncts, or a quoted value breaking the literal) fail
the query, which the Go code wraps in a failed-to-query message.  The
evaluation of a nonempty ORDER BY over the matched rows — a reordering, or a
failure such as an unknown column — belongs to the engine and is passed as an
explicit collaborator parameter (sortEval), exactly as the text-match
predicate is for search; with an empty sort the rows come back in storage
order. -/

/-- Pagination semantics of the LIMIT and OFFSET fragments (each applies
    exactly when positive, per FormatLimitOffset). -/
def applyLimitOffset (limit offset : Int) (rows : List α) : List α :=
  let rows2 := if offset > 0 then rows.drop offset.toNat else rows
  if limit > 0 then rows2.take limit.toNat else rows2

/-- Row predicate of the product List query: each integer equality conjunct
    is present exactly when its parameter is nonzero (per
    FormatAndInt_empty_iff). -/
def productMatches (f : ProductFilter) (r : Product) : Bool :=
  (f.CategoryID == 0 || r.CategoryID == f.CategoryID) && (f.ID == 0 || r.ID == f.ID)

/-- Modelled from the spec: the engine evaluates a well-formed product List
    query — conjuncts filter rows, a nonempty sort is evaluated by the
    engine collaborator (reordering or failing), pagination trims last. -/
def productSelect (sortEval : String → List Product → Except PgErr (List Product))
    (f : ProductFilter) (tbl : List Product) : Except PgErr (List Product) :=
  let rows := tbl.filter (productMatches f)
  match (if f.«Sort» = "" then Except.ok rows else sortEval f.«Sort» rows) with
  | .error e => .error e
  | .ok rows2 => .ok (applyLimitOffset f.Limit f.Offset rows2)

/-- ProductStore.List, from src/postgres/product.go: a failed query (a
    malformed tail, or a sort the engine rejects) is wrapped in the
    failed-to-query message; zero decoded rows yield the domain error. -/
protected def ProductStore.List
    (sortEval : String → List Product → Except PgErr (List Product))
    (tbl : List Product) (filter : ProductFilter) : Except StoreErr (List Product) :=
  if sqlTailValid (productListQueryTail filter) = true then
    match productSelect sortEval filter tbl with
    | .error e => .error (.wrapped "failed to query list products" e)
    | .ok products =>
      if products.isEmpty then .error .noProductsFound else .ok products
  else .error (.wrapped "failed to query list products" (.other "malformed query"))

/-- ProductStore.GetByID, from src/postgres/product.go: List with only the id
    predicate, then index zero of the result (a Go panic on an empty slice —
    unreachable because List never succeeds with an empty slice). -/
protected def ProductStore.GetByID
    (sortEval : String → List Product → Except PgErr (List Product))
    (tbl : List Product) (ID : Int) : Except StoreErr Product :=
  match ProductStore.List sortEval tbl { ID := ID } with
  | .error e => .error e
  | .ok products =>
    match products with
    | [] => .error .goPanic
    | x :: _ => .ok x

/-- Row predicate of the category List query (string equality on name,
    integer equality on id). -/
def categoryMatches (f : CategoryFilter) (r : Category) : Bool :=
  (f.Name == "" || r.Name == f.Name) && (f.ID == 0 || r.ID == f.ID)

/-- Modelled from the spec: the engine evaluates a well-formed category List
    query. -/
def categorySelect (sortEval : String → List Category → Except PgErr (List Category))
    (f : CategoryFilter) (tbl : List Category) : Except PgErr (List Category) :=
  let rows := tbl.filter (categoryMatches f)
  match (if f.«Sort» = "" then Except.ok rows else sortEval f.«Sort» rows) with
  | .error e => .error e
  | .ok rows2 => .ok (applyLimitOffset f.Limit f.Offset rows2)

/-- categoryStore.List, from src/postgres/category.go. -/
protected def categoryStore.List
    (sortEval : String → List Category → Except PgErr (List Category))
    (tbl : List Category) (filter : CategoryFilter) : Except StoreErr (List Category) :=
  if sqlTailValid (categoryListQueryTail filter) = true then
    match categorySelect sortEval filter tbl with
    | .error e => .error (.wrapped "failed to list categories" e)
    | .ok categories =>
      if categories.isEmpty then .error .noCategoryFound else .ok categories
  else .error (.wrapped "failed to list categories" (.other "malformed query"))

/-- categoryStore.GetByID, from src/postgres/category.go. -/
protected def categoryStore.GetByID
    (sortEval : String → List Category → Except PgErr (List Category))
    (tbl : List Category) (ID : Int) : Except StoreErr Category :=
  match categoryStore.List sortEval tbl { ID := ID } with
  | .error e => .error e
  | .ok categories =>
    match categories with
    | [] => .error .goPanic
    | x :: _ => .ok x

/-- Row predicate of the cart List query (integer equality on id and
    user_id). -/
def cartMatches (f : CartFilter) (r : Cart) : Bool :=
  (f.ID == 0 || r.ID == f.ID) && (f.UserID == 0 || r.UserID == f.UserID)

/-- Modelled from the spec: the engine evaluates a well-formed cart List
    query. -/
def cartSelect (sortEval : String → List Cart → Except PgErr (List Cart))
    (f : CartFilter) (tbl : List Cart) : Except PgErr (List Cart) :=
  let rows := tbl.filter (cartMatches f)
  match (if f.«Sort» = "" then Except.ok rows else sortEval f.«Sort» rows) with
  | .error e => .error e
  | .ok rows2 => .ok (applyLimitOffset f.Limit f.Offset rows2)

/-- cartStore.List, from the cart store file (src/unnamed/part_005). -/
protected def cartStore.List
    (sortEval : String → List Cart → Except PgErr (List Cart))
    (tbl : List Cart) (filter : CartFilter) : Except StoreErr (List Cart) :=
  if sqlTailValid (cartListQueryTail filter) = true then
    match cartSelect sortEval filter tbl with
    | .error e => .error (.wrapped "failed to query list carts" e)
    | .ok carts =>
      if carts.isEmpty then .error .noCartsFound else .ok carts
  else .error (.wrapped "failed to query list carts" (.other "malformed query"))

/-! ### Token lookup and search -/

/-- TokenStore.GetUserID, from src/postgres/token.go: digest the plaintext,
    join tokens (matching digest, expiry strictly in the future) to users,
    collect the first row or the pgx no-rows failure (wrapped by the store);
    the zero-id guard mirrors the dead sql.ErrNoRows branch.  The digest
    function is the external collaborator domain.HashToken, passed as a
    parameter. -/
protected def TokenStore.GetUserID (hash : String → String) (users : List User)
    (tokens : List Token) (now : Int) (plainToken : String) : Except StoreErr Int :=
  let hashedToken := hash plainToken
  let rows := (tokens.filter (fun t => t.Hashed == hashedToken && now < t.Expiry)).flatMap
    (fun t => users.filter (fun u => u.ID == t.UserID))
  match rows with
  | [] => .error (.wrapped "failed to query user" .noRows)
  | user :: _ => if user.ID = 0 then .error .sqlNoRows else .ok user.ID

/-- fullSearchName, from src/postgres/search.go: full-text match of the query
    against the name column of a table.  The text-match predicate (the
    engine's tsvector matching) is the external collaborator, passed as a
    parameter. -/
def fullSearchName (m : String → String → Bool) (rows : List α)
    (nameOf : α → String) (query : String) : List α :=
  rows.filter (fun r => m query (nameOf r))

/-- SearchStore.Search, from src/postgres/search.go: category hits wrapped
    first, then product hits, then the empty-result check. -/
protected def SearchStore.Search (m : String → String → Bool) (cats : List Category)
    (prods : List Product) (query : String) : Except StoreErr (List Search) :=
  let categories := fullSearchName m cats (fun c => c.Name) query
  let results1 := categories.map (fun c => ({ Prodcuts := none, Categories := some c } : Search))
  let products := fullSearchName m prods (fun p => p.Name) query
  let results := results1 ++ products.map
    (fun p => ({ Prodcuts := some p, Categories := none } : Search))
  if results.isEmpty then .error .noSearchResult else .ok results

/-! ### Helper lemmas about the store operations -/

/-- Row set of a sort-free product List query: the predicate matches with
    pagination applied, in storage order. -/
def productRows (f : ProductFilter) (tbl : List Product) : List Product :=
  applyLimitOffset f.Limit f.Offset (tbl.filter (productMatches f))

/-- Row set of a sort-free category List query. -/
def categoryRows (f : CategoryFilter) (tbl : List Category) : List Category :=
  applyLimitOffset f.Limit f.Offset (tbl.filter (categoryMatches f))

/-- Row set of a sort-free cart List query. -/
def cartRows (f : CartFilter) (tbl : List Cart) : List Cart :=
  applyLimitOffset f.Limit f.Offset (tbl.filter (cartMatches f))

/-- With an empty sort column the engine never consults the sort
    collaborator: the product select succeeds with the sort-free row set. -/
theorem productSelect_sort_empty
    (sortEval : String → List Product → Except PgErr (List Product))
    (f : ProductFilter) (tbl : List Product) (hs : f.«Sort» = "") :
    productSelect sortEval f tbl = .ok (productRows f tbl) := by
  simp [productSelect, productRows, hs]

/-- Category analogue of productSelect_sort_empty. -/
theorem categorySelect_sort_empty
    (sortEval : String → List Category → Except PgErr (List Category))
    (f : CategoryFilter) (tbl : List Category) (hs : f.«Sort» = "") :
    categorySelect sortEval f tbl = .ok (categoryRows f tbl) := by
  simp [categorySelect, categoryRows, hs]

/-- Cart analogue of productSelect_sort_empty. -/
theorem cartSelect_sort_empty
    (sortEval : String → List Cart → Except PgErr (List Cart))
    (f : CartFilter) (tbl : List Cart) (hs : f.«Sort» = "") :
    cartSelect sortEval f tbl = .ok (cartRows f tbl) := by
  simp [cartSelect, cartRows, hs]

/-- A successful product List returns a nonempty slice. -/
theorem productList_ok {sortEval : String → List Product → Except PgErr (List Product)}
    {tbl : List Product} {f : ProductFilter} {l : List Product}
    (h : ProductStore.List sortEval tbl f = .ok l) : l ≠ [] := by
  unfold ProductStore.List at h
  by_cases hv : sqlTailValid (productListQueryTail f) = true
  · rw [if_pos hv] at h
    cases hs : productSelect sortEval f tbl with
    | error e =>
      rw [hs] at h
      simp at h
    | ok rows =>
      rw [hs] at h
      by_cases he : rows.isEmpty
      · simp only [if_pos he] at h
        cases h
      · simp only [if_neg he] at h
        cases h
        simpa [List.isEmpty_iff] using he
  · rw [if_neg hv] at h
    cases h

/-- A successful category List returns a nonempty slice. -/
theorem categoryList_ok {sortEval : String → List Category → Except PgErr (List Category)}
    {tbl : List Category} {f : CategoryFilter} {l : List Category}
    (h : categoryStore.List sortEval tbl f = .ok l) : l ≠ [] := by
  unfold categoryStore.List at h
  by_cases hv : sqlTailValid (categoryListQueryTail f) = true
  · rw [if_pos hv] at h
    cases hs : categorySelect sortEval f tbl with
    | error e =>
      rw [hs] at h
      simp at h
    | ok rows =>
      rw [hs] at h
      by_cases he : rows.isEmpty
      · simp only [if_pos he] at h
        cases h
      · simp only [if_neg he] at h
        cases h
        simpa [List.isEmpty_iff] using he
  · rw [if_neg hv] at h
    cases h

/-- A sort-free product List reduces to the empty-check over the sort-free
    row set. -/
theorem productList_sort_empty
    (sortEval : String → List Product → Except PgErr (List Product))
    (tbl : List Product) (f : ProductFilter) (hs : f.«Sort» = "") :
    ProductStore.List sortEval tbl f
      = if (productRows f tbl).isEmpty then Except.error StoreErr.noProductsFound
        else Except.ok (productRows f tbl) := by
  have hv : sqlTailValid (productListQueryTail f) = true := productTail_valid f hs
  have hsel := productSelect_sort_empty sortEval f tbl hs
  unfold ProductStore.List
  rw [if_pos hv, hsel]

/-- A sort-free category List reduces to the empty-check over the sort-free
    row set (the name value must be quote-free for the query to parse). -/
theorem categoryList_sort_empty
    (sortEval : String → List Category → Except PgErr (List Category))
    (tbl : List Category) (f : CategoryFilter) (hs : f.«Sort» = "")
    (hn : ∀ c ∈ f.Name.toList, ¬ c = squote) :
    categoryStore.List sortEval tbl f
      = if (categoryRows f tbl).isEmpty then Except.error StoreErr.noCategoryFound
        else Except.ok (categoryRows f tbl) := by
  have hv : sqlTailValid (categoryListQueryTail f) = true := categoryTail_valid f hs hn
  have hsel := categorySelect_sort_empty sortEval f tbl hs
  unfold categoryStore.List
  rw [if_pos hv, hsel]

/-- A sort-free cart List reduces to the empty-check over the sort-free row
    set. -/
theorem cartList_sort_empty
    (sortEval : String → List Cart → Except PgErr (List Cart))
    (tbl : List Cart) (f : CartFilter) (hs : f.«Sort» = "") :
    cartStore.List sortEval tbl f
      = if (cartRows f tbl).isEmpty then Except.error StoreErr.noCartsFound
        else Except.ok (cartRows f tbl) := by
  have hv : sqlTailValid (cartListQueryTail f) = true := cartTail_valid f hs
  have hsel := cartSelect_sort_empty sortEval f tbl hs
  unfold cartStore.List
  rw [if_pos hv, hsel]

/-- A product List whose built query tail fails the parser returns the
    wrapped query failure. -/
theorem productList_invalid
    (sortEval : String → List Product → Except PgErr (List Product))
    (tbl : List Product) (f : ProductFilter)
    (hv : sqlTailValid (productListQueryTail f) = false) :
    ProductStore.List sortEval tbl f
      = .error (.wrapped "failed to query list products" (.other "malformed query")) := by
  unfold ProductStore.List
  rw [if_neg (by simp [hv])]

/-- Category analogue of productList_invalid. -/
theorem categoryList_invalid
    (sortEval : String → List Category → Except PgErr (List Category))
    (tbl : List Category) (f : CategoryFilter)
    (hv : sqlTailValid (categoryListQueryTail f) = false) :
    categoryStore.List sortEval tbl f
      = .error (.wrapped "failed to list categories" (.other "malformed query")) := by
  unfold categoryStore.List
  rw [if_neg (by simp [hv])]

/-- Cart analogue of productList_invalid. -/
theorem cartList_invalid
    (sortEval : String → List Cart → Except PgErr (List Cart))
    (tbl : List Cart) (f : CartFilter)
    (hv : sqlTailValid (cartListQueryTail f) = false) :
    cartStore.List sortEval tbl f
      = .error (.wrapped "failed to query list carts" (.other "malformed query")) := by
  unfold cartStore.List
  rw [if_neg (by simp [hv])]

/-- A demo product sort collaborator (keeps storage order), used by the
    concrete C4 instances; the malformed queries they exhibit never reach
    it. -/
def sortEvalDemo : String → List Product → Except PgErr (List Product) :=
  fun _ rows => .ok rows

/-- A demo cart sort collaborator for the concrete C4 instances. -/
def cartSortEvalDemo : String → List Cart → Except PgErr (List Cart) :=
  fun _ rows => .ok rows

/-- Rows with pairwise distinct ids admit at most one row per id. -/
theorem pairwise_id_inj {α : Type} (idOf : α → Int) (tbl : List α)
    (hp : List.Pairwise (fun a b => idOf a ≠ idOf b) tbl) :
    ∀ q ∈ tbl, ∀ r ∈ tbl, idOf q = idOf r → q = r := by
  intro q hq r hr he
  by_contra hne
  exact List.Pairwise.forall (fun a b h => Ne.symm h) hp hq hr hne he

/-! ### The claims -/

/-- Claim C1: for a versioned Update of a Product or Category, if no stored
    row carries both the requested id and the caller-supplied version, the
    operation returns the resource conflict domain error and the table is
    unchanged (the operation is a single statement; no retry exists by
    construction). -/
theorem C1_update_conflict :
    (∀ (cats : List Category) (tbl : List Product) (p : Product),
      (∀ r ∈ tbl, ¬ (r.ID = p.ID ∧ r.Version = p.Version)) →
      ProductStore.Update cats tbl p = (tbl, .error .productConflict)) ∧
    (∀ (tbl : List Category) (ID : Int) (input : CategoryUpdate),
      (∀ r ∈ tbl, ¬ (r.ID = ID ∧ r.Version = input.Version)) →
      categoryStore.Update tbl ID input = (tbl, .error .categoryConflict)) := by
  constructor
  · intro cats tbl p h
    have hf : tbl.find? (fun r => r.ID == p.ID && r.Version == p.Version) = none := by
      rw [List.find?_eq_none]
      intro r hr
      have := h r hr
      simp only [Bool.and_eq_true, beq_iff_eq]
      exact fun hc => this ⟨hc.1, hc.2⟩
    simp only [ProductStore.Update, productUpdateStmt, hf, productUpdateTranslate]
  · intro tbl ID input h
    have hf : tbl.find? (fun r => r.ID == ID && r.Version == input.Version) = none := by
      rw [List.find?_eq_none]
      intro r hr
      have := h r hr
      simp only [Bool.and_eq_true, beq_iff_eq]
      exact fun hc => this ⟨hc.1, hc.2⟩
    simp only [categoryStore.Update, categoryUpdateStmt, hf, categoryUpdateTranslate]

/-- Witness for C1 at a concrete input: updating an empty table conflicts. -/
theorem C1_update_conflict_witness :
    ProductStore.Update [] [] { ID := 1, Version := 1 }
      = ([], .error .productConflict) ∧
    categoryStore.Update [] 1 { Version := 1 }
      = ([], .error .categoryConflict) :=
  ⟨C1_update_conflict.1 [] [] { ID := 1, Version := 1 } (by simp),
   C1_update_conflict.2 [] 1 { Version := 1 } (by simp)⟩

/-- Counterexample to C4 as stated: a filter combining the sort column with
    an equality predicate is reachable, matches a stored row, yet List
    returns a wrapped query failure — the store places the sort fragment
    before the conjunct, so the built statement is malformed — rather than
    the no-rows domain error or the matching rows. -/
theorem C4_counterexample :
    productMatches { «Sort» := "name", ID := 3 } { ID := 3, Name := "a" } = true ∧
    sqlTailValid (productListQueryTail { «Sort» := "name", ID := 3 }) = false ∧
    ProductStore.List sortEvalDemo [{ ID := 3, Name := "a" }] { «Sort» := "name", ID := 3 }
      = .error (.wrapped "failed to query list products" (.other "malformed query")) ∧
    StoreErr.wrapped "failed to query list products" (.other "malformed query")
      ≠ StoreErr.noProductsFound := by
  refine ⟨by decide, by decide,
    productList_invalid sortEvalDemo _ _ (by decide), by decide⟩

/-- Claim C4 as amended: for every resource and every filter with an empty
    sort column (and, for categories, a quote-free name value), List returns
    the no-rows-found domain error exactly when the query yields zero rows —
    never an empty slice with success — and otherwise all yielded rows
    (without pagination, exactly the rows matching the filter predicates, in
    storage order); a filter whose built query is malformed — in particular
    the reachable sort-plus-predicate combinations, since the stores place
    the sort fragment before the conjuncts — makes List return a wrapped
    query failure instead. -/
theorem C4_list_no_rows :
    (∀ (sortEval : String → List Product → Except PgErr (List Product))
        (tbl : List Product) (f : ProductFilter), f.«Sort» = "" →
      (productRows f tbl = [] →
        ProductStore.List sortEval tbl f = .error .noProductsFound) ∧
      (productRows f tbl ≠ [] →
        ProductStore.List sortEval tbl f = .ok (productRows f tbl)) ∧
      (f.Limit ≤ 0 → f.Offset ≤ 0 →
        productRows f tbl = tbl.filter (productMatches f))) ∧
    (∀ (sortEval : String → List Product → Except PgErr (List Product))
        (tbl : List Product) (f : ProductFilter),
      sqlTailValid (productListQueryTail f) = false →
      ProductStore.List sortEval tbl f
        = .error (.wrapped "failed to query list products" (.other "malformed query"))) ∧
    (∀ (sortEval : String → List Category → Except PgErr (List Category))
        (tbl : List Category) (f : CategoryFilter), f.«Sort» = "" →
      (∀ c ∈ f.Name.toList, ¬ c = squote) →
      (categoryRows f tbl = [] →
        categoryStore.List sortEval tbl f = .error .noCategoryFound) ∧
      (categoryRows f tbl ≠ [] →
        categoryStore.List sortEval tbl f = .ok (categoryRows f tbl)) ∧
      (f.Limit ≤ 0 → f.Offset ≤ 0 →
        categoryRows f tbl = tbl.filter (categoryMatches f))) ∧
    (∀ (sortEval : String → List Category → Except PgErr (List Category))
        (tbl : List Category) (f : CategoryFilter),
      sqlTailValid (categoryListQueryTail f) = false →
      categoryStore.List sortEval tbl f
        = .error (.wrapped "failed to list categories" (.other "malformed query"))) ∧
    (∀ (sortEval : String → List Cart → Except PgErr (List Cart))
        (tbl : List Cart) (f : CartFilter), f.«Sort» = "" →
      (cartRows f tbl = [] →
        cartStore.List sortEval tbl f = .error .noCartsFound) ∧
      (cartRows f tbl ≠ [] →
        cartStore.List sortEval tbl f = .ok (cartRows f tbl)) ∧
      (f.Limit ≤ 0 → f.Offset ≤ 0 →
        cartRows f tbl = tbl.filter (cartMatches f))) ∧
    (∀ (sortEval : String → List Cart → Except PgErr (List Cart))
        (tbl : List Cart) (f : CartFilter),
      sqlTailValid (cartListQueryTail f) = false →
      cartStore.List sortEval tbl f
        = .error (.wrapped "failed to query list carts" (.other "malformed query"))) := by
  refine ⟨?_, ?_, ?_, ?_, ?_, ?_⟩
  · intro sortEval tbl f hs
    have hL := productList_sort_empty sortEval tbl f hs
    refine ⟨?_, ?_, ?_⟩
    · intro h
      rw [hL, h]
      rfl
    · intro h
      rw [hL, if_neg (by simp [List.isEmpty_iff, h])]
    · intro hl ho
      simp [productRows, applyLimitOffset, if_neg (by omega : ¬ f.Offset > 0),
        if_neg (by omega : ¬ f.Limit > 0)]
  · intro sortEval tbl f hv
    exact productList_invalid sortEval tbl f hv
  · intro sortEval tbl f hs hn
    have hL := categoryList_sort_empty sortEval tbl f hs hn
    refine ⟨?_, ?_, ?_⟩
    · intro h
      rw [hL, h]
      rfl
    · intro h
      rw [hL, if_neg (by simp [List.isEmpty_iff, h])]
    · intro hl ho
      simp [categoryRows, applyLimitOffset, if_neg (by omega : ¬ f.Offset > 0),
        if_neg (by omega : ¬ f.Limit > 0)]
  · intro sortEval tbl f hv
    exact categoryList_invalid sortEval tbl f hv
  · intro sortEval tbl f hs
    have hL := cartList_sort_empty sortEval tbl f hs
    refine ⟨?_, ?_, ?_⟩
    · intro h
      rw [hL, h]
      rfl
    · intro h
      rw [hL, if_neg (by simp [List.isEmpty_iff, h])]
    · intro hl ho
      simp [cartRows, applyLimitOffset, if_neg (by omega : ¬ f.Offset > 0),
        if_neg (by omega : ¬ f.Limit > 0)]
  · intro sortEval tbl f hv
    exact cartList_invalid sortEval tbl f hv

/-- Witness for C4 as amended at concrete inputs: an empty table yields the
    domain error, a one-row table yields the row, and a sorted filtered
    query yields the wrapped failure. -/
theorem C4_list_no_rows_witness :
    ProductStore.List sortEvalDemo [] {} = .error .noProductsFound ∧
    cartStore.List cartSortEvalDemo [{ ID := 1, UserID := 2 }] { UserID := 2 }
      = .ok [{ ID := 1, UserID := 2 }] ∧
    ProductStore.List sortEvalDemo [{ ID := 3, Name := "a" }] { «Sort» := "name", ID := 3 }
      = .error (.wrapped "failed to query list products" (.other "malformed query")) :=
  ⟨(C4_list_no_rows.1 sortEvalDemo [] {} rfl).1 rfl,
   (C4_list_no_rows.2.2.2.2.1 cartSortEvalDemo [{ ID := 1, UserID := 2 }]
     { UserID := 2 } rfl).2.1 (by decide),
   C4_list_no_rows.2.1 sortEvalDemo [{ ID := 3, Name := "a" }]
     { «Sort» := "name", ID := 3 } (by decide)⟩

/-- Spec-side definition of product GetByID, following the words of the
    specification: List with only the id predicate set, returning the first
    (and only) result, or the not-found error. -/
def productGetByIDSpec (sortEval : String → List Product → Except PgErr (List Product))
    (tbl : List Product) (ID : Int) : Except StoreErr Product :=
  match ProductStore.List sortEval tbl { ID := ID } with
  | .error e => .error e
  | .ok l =>
    match l with
    | [] => .error .noProductsFound
    | x :: _ => .ok x

/-- Spec-side definition of category GetByID, following the words of the
    specification. -/
def categoryGetByIDSpec (sortEval : String → List Category → Except PgErr (List Category))
    (tbl : List Category) (ID : Int) : Except StoreErr Category :=
  match categoryStore.List sortEval tbl { ID := ID } with
  | .error e => .error e
  | .ok l =>
    match l with
    | [] => .error .noCategoryFound
    | x :: _ => .ok x

/-- Claim C5: GetByID observationally equals List with only the id predicate
    followed by taking the first element — the same entity on success, and
    exactly the error List produced on failure (for products and categories,
    under every engine sort collaborator, which the id-only sort-free filter
    never consults). -/
theorem C5_getbyid_refines_list :
    (∀ (sortEval : String → List Product → Except PgErr (List Product))
        (tbl : List Product) (ID : Int),
      ProductStore.GetByID sortEval tbl ID = productGetByIDSpec sortEval tbl ID) ∧
    (∀ (sortEval : String → List Category → Except PgErr (List Category))
        (tbl : List Category) (ID : Int),
      categoryStore.GetByID sortEval tbl ID = categoryGetByIDSpec sortEval tbl ID) := by
  constructor
  · intro sortEval tbl ID
    unfold ProductStore.GetByID productGetByIDSpec
    cases h : ProductStore.List sortEval tbl { ID := ID } with
    | error e => rfl
    | ok l =>
      cases l with
      | nil => exact absurd rfl (productList_ok h)
      | cons x rest => rfl
  · intro sortEval tbl ID
    unfold categoryStore.GetByID categoryGetByIDSpec
    cases h : categoryStore.List sortEval tbl { ID := ID } with
    | error e => rfl
    | ok l =>
      cases l with
      | nil => exact absurd rfl (categoryList_ok h)
      | cons x rest => rfl

/-- Claim C10: with id zero the integer equality fragment is empty, so
    GetByID(0) runs the List query with no id predicate: on a nonempty table
    it succeeds with the first row in storage order, and only on an empty
    table does it return the no-rows-found error. -/
theorem C10_getbyid_zero :
    FormatAndInt "id" 0 = "" ∧
    (∀ (sortEval : String → List Product → Except PgErr (List Product))
        (x : Product) (rest : List Product),
      ProductStore.GetByID sortEval (x :: rest) 0 = .ok x) ∧
    (∀ (sortEval : String → List Product → Except PgErr (List Product)),
      ProductStore.GetByID sortEval ([] : List Product) 0
        = .error .noProductsFound) := by
  refine ⟨rfl, ?_, ?_⟩
  · intro sortEval x rest
    have hall : (x :: rest).filter (productMatches ({ ID := 0 } : ProductFilter))
        = x :: rest := by
      apply List.filter_eq_self.2
      intro a ha
      rfl
    have hrows : productRows { ID := 0 } (x :: rest) = x :: rest := by
      simp [productRows, applyLimitOffset, hall]
    have hL := productList_sort_empty sortEval (x :: rest) { ID := 0 } rfl
    rw [hrows] at hL
    unfold ProductStore.GetByID
    rw [hL]
    rfl
  · intro sortEval
    have hL := productList_sort_empty sortEval [] { ID := 0 } rfl
    unfold ProductStore.GetByID
    rw [hL]
    rfl

/-- Claim C2: a successful Create stores and returns version 1; a successful
    versioned Update returns the supplied version plus one and leaves the
    row with the requested id at exactly that version (ids are unique per
    the primary key, expressed as the pairwise hypothesis). -/
theorem C2_version_monotonic :
    (∀ (cats : List Category) (tbl : List Product) (nextId : Int) (p : Product)
        (tbl2 : List Product) (p2 : Product),
      ProductStore.Create cats tbl nextId p = (tbl2, .ok p2) →
      p2.Version = 1 ∧ ∃ r : Product, tbl2 = tbl ++ [r] ∧ r.Version = 1) ∧
    (∀ (cats : List Category) (tbl : List Product) (p : Product)
        (tbl2 : List Product) (p2 : Product),
      List.Pairwise (fun a b => a.ID ≠ b.ID) tbl →
      ProductStore.Update cats tbl p = (tbl2, .ok p2) →
      p2.Version = p.Version + 1 ∧
      (∃ r ∈ tbl, r.ID = p.ID ∧ r.Version = p.Version) ∧
      (∀ s ∈ tbl2, s.ID = p.ID → s.Version = p.Version + 1)) ∧
    (∀ (tbl : List Category) (nextId : Int) (c : Category)
        (tbl2 : List Category) (c2 : Category),
      categoryStore.Create tbl nextId c = (tbl2, .ok c2) →
      c2.Version = 1 ∧ ∃ r : Category, tbl2 = tbl ++ [r] ∧ r.Version = 1) ∧
    (∀ (tbl : List Category) (ID : Int) (input : CategoryUpdate)
        (tbl2 : List Category) (c2 : Category),
      List.Pairwise (fun a b => a.ID ≠ b.ID) tbl →
      categoryStore.Update tbl ID input = (tbl2, .ok c2) →
      c2.Version = input.Version + 1 ∧
      (∃ r ∈ tbl, r.ID = ID ∧ r.Version = input.Version) ∧
      (∀ s ∈ tbl2, s.ID = ID → s.Version = input.Version + 1)) := by
  refine ⟨?_, ?_, ?_, ?_⟩
  · -- product Create
    intro cats tbl nextId p tbl2 p2 h
    unfold ProductStore.Create productInsertStmt at h
    by_cases h1 : ∃ r ∈ tbl, r.Name = p.Name
    · rw [if_pos h1] at h
      cases h
    · rw [if_neg h1] at h
      by_cases h2 : ¬ ∃ c ∈ cats, c.ID = p.CategoryID
      · rw [if_pos h2] at h
        cases h
      · rw [if_neg h2] at h
        simp only [Prod.mk.injEq, Except.ok.injEq] at h
        refine ⟨?_, ?_⟩
        · rw [← h.2]
        · exact ⟨_, h.1.symm, rfl⟩
  · -- product Update
    intro cats tbl p tbl2 p2 hpw h
    unfold ProductStore.Update productUpdateStmt at h
    cases hf : tbl.find? (fun r => r.ID == p.ID && r.Version == p.Version) with
    | none =>
      rw [hf] at h
      cases h
    | some r =>
      rw [hf] at h
      have hrmem : r ∈ tbl := List.mem_of_find?_eq_some hf
      have hrp : r.ID = p.ID ∧ r.Version = p.Version := by
        have := List.find?_some hf
        simpa [Bool.and_eq_true, beq_iff_eq] using this
      by_cases h1 : ∃ q ∈ tbl, ¬ q.ID = r.ID ∧ q.Name = p.Name
      · simp only [if_pos h1] at h
        simp at h
      · simp only [if_neg h1] at h
        by_cases h2 : ¬ ∃ c ∈ cats, c.ID = p.CategoryID
        · simp only [if_pos h2] at h
          simp at h
        · simp only [if_neg h2] at h
          simp only [Prod.mk.injEq, Except.ok.injEq] at h
          refine ⟨?_, ⟨r, hrmem, hrp⟩, ?_⟩
          · rw [← h.2]
            simp [hrp.2]
          · intro s hs hsid
            rw [← h.1] at hs
            obtain ⟨q, hq, hqs⟩ := List.mem_map.1 hs
            by_cases hc : q.ID = p.ID ∧ q.Version = p.Version
            · rw [if_pos hc] at hqs
              rw [← hqs]
              simp [hc.2]
            · rw [if_neg hc] at hqs
              rw [← hqs] at hsid
              have : q = r := pairwise_id_inj (fun a => a.ID) tbl hpw q hq r hrmem
                (by show q.ID = r.ID; rw [hsid, hrp.1])
              rw [this] at hc
              exact absurd ⟨hrp.1, hrp.2⟩ hc
  · -- category Create
    intro tbl nextId c tbl2 c2 h
    unfold categoryStore.Create categoryInsertStmt at h
    by_cases h1 : ∃ r ∈ tbl, r.Name = c.Name
    · rw [if_pos h1] at h
      cases h
    · rw [if_neg h1] at h
      simp only [Prod.mk.injEq, Except.ok.injEq] at h
      refine ⟨?_, ?_⟩
      · rw [← h.2]
      · exact ⟨_, h.1.symm, rfl⟩
  · -- category Update
    intro tbl ID input tbl2 c2 hpw h
    unfold categoryStore.Update categoryUpdateStmt at h
    cases hf : tbl.find? (fun r => r.ID == ID && r.Version == input.Version) with
    | none =>
      rw [hf] at h
      cases h
    | some r =>
      rw [hf] at h
      have hrmem : r ∈ tbl := List.mem_of_find?_eq_some hf
      have hrp : r.ID = ID ∧ r.Version = input.Version := by
        have := List.find?_some hf
        simpa [Bool.and_eq_true, beq_iff_eq] using this
      by_cases h1 : ∃ q ∈ tbl, ¬ q.ID = r.ID ∧ q.Name = input.Name.getD r.Name
      · simp only [if_pos h1] at h
        simp at h
      · simp only [if_neg h1] at h
        simp only [Prod.mk.injEq, Except.ok.injEq] at h
        refine ⟨?_, ⟨r, hrmem, hrp⟩, ?_⟩
        · rw [← h.2]
          simp [hrp.2]
        · intro s hs hsid
          rw [← h.1] at hs
          obtain ⟨q, hq, hqs⟩ := List.mem_map.1 hs
          by_cases hc : q.ID = ID ∧ q.Version = input.Version
          · rw [if_pos hc] at hqs
            rw [← hqs]
            simp [hc.2]
          · rw [if_neg hc] at hqs
            rw [← hqs] at hsid
            have : q = r := pairwise_id_inj (fun a => a.ID) tbl hpw q hq r hrmem
              (by show q.ID = r.ID; rw [hsid, hrp.1])
            rw [this] at hc
            exact absurd ⟨hrp.1, hrp.2⟩ hc

/-- Witness for C2 at concrete inputs: a create stores version 1 and an
    update on version 1 moves the row to version 2. -/
theorem C2_version_monotonic_witness :
    (({ ID := 1, Name := "n", CategoryID := 5, Version := 1 } : Product).Version = 1 ∧
      ∃ r : Product, [({ ID := 1, Name := "n", CategoryID := 5, Version := 1 } : Product)]
        = [] ++ [r] ∧ r.Version = 1) ∧
    (({ ID := 1, Name := "m", CategoryID := 5, Version := 2 } : Product).Version = 1 + 1 ∧
      (∃ r ∈ [({ ID := 1, Name := "n", CategoryID := 5, Version := 1 } : Product)],
        r.ID = 1 ∧ r.Version = 1) ∧
      (∀ s ∈ [({ ID := 1, Name := "m", CategoryID := 5, Version := 2 } : Product)],
        s.ID = 1 → s.Version = 1 + 1)) := by
  constructor
  · exact C2_version_monotonic.1 [{ ID := 5 }] [] 1 { Name := "n", CategoryID := 5 }
      [{ ID := 1, Name := "n", CategoryID := 5, Version := 1 }]
      { ID := 1, Name := "n", CategoryID := 5, Version := 1 } rfl
  · have h := C2_version_monotonic.2.1 [{ ID := 5 }]
      [{ ID := 1, Name := "n", CategoryID := 5, Version := 1 }]
      { ID := 1, Name := "m", CategoryID := 5, Version := 1 }
      [{ ID := 1, Name := "m", CategoryID := 5, Version := 2 }]
      { ID := 1, Name := "m", CategoryID := 5, Version := 2 }
      (by simp) rfl
    exact h

/-- Counterexample to C3 as stated: a foreign-key violation on the token
    table maps to the generic store foreign-key error, which is not the
    InvalidToken domain error; and an unrecognized error reaching the token
    store is wrapped rather than returned unchanged. -/
theorem C3_counterexample :
    tokenCreateTranslate (.pg ForeignKeyViolation "tokens_user_id_fkey")
      = .foreignKeyViolation ∧
    StoreErr.foreignKeyViolation ≠ StoreErr.invalidToken ∧
    tokenCreateTranslate (.other "boom")
      = .wrapped "failed to insert into tokens" (.other "boom") := by
  refine ⟨by decide, by decide, rfl⟩

/-- Claim C3 as amended: the dispatch table holds for the product, category
    and cart stores, which return unrecognized errors unchanged; the token
    store maps any foreign-key violation (constraint name not inspected) to
    the generic store foreign-key error — not InvalidToken — and wraps every
    other error in an insert-context message instead of returning it
    unchanged. -/
theorem C3_translator_dispatch :
    productCreateTranslate (.pg UniqueViolation "products_name_key")
      = .duplicatedProduct ∧
    productCreateTranslate (.pg ForeignKeyViolation "products_category_id_fkey")
      = .invalidProductCategory ∧
    categoryCreateTranslate (.pg UniqueViolation "categories_name_key")
      = .duplicatedCategory ∧
    cartCreateTranslate (.pg ForeignKeyViolation "carts_user_id_fkey")
      = .cartInvalidUserID ∧
    cartCreateTranslate (.pg ForeignKeyViolation "carts_product_id_fkey")
      = .cartInvalidProductID ∧
    (∀ code cn, ¬ (code = ForeignKeyViolation ∧ cn = "products_category_id_fkey") →
      ¬ (code = UniqueViolation ∧ cn = "products_name_key") →
      productCreateTranslate (.pg code cn) = .raw (.pg code cn)) ∧
    productCreateTranslate .noRows = .raw .noRows ∧
    (∀ msg, productCreateTranslate (.other msg) = .raw (.other msg)) ∧
    (∀ code cn, ¬ (code = UniqueViolation ∧ cn = "categories_name_key") →
      categoryCreateTranslate (.pg code cn) = .raw (.pg code cn)) ∧
    (∀ code cn, ¬ (code = ForeignKeyViolation ∧ cn = "carts_user_id_fkey") →
      ¬ (code = ForeignKeyViolation ∧ cn = "carts_product_id_fkey") →
      cartCreateTranslate (.pg code cn) = .raw (.pg code cn)) ∧
    (∀ cn, tokenCreateTranslate (.pg ForeignKeyViolation cn) = .foreignKeyViolation) ∧
    (∀ code cn, ¬ code = ForeignKeyViolation →
      tokenCreateTranslate (.pg code cn)
        = .wrapped "failed to insert into tokens" (.pg code cn)) ∧
    tokenCreateTranslate .noRows = .wrapped "failed to insert into tokens" .noRows ∧
    (∀ msg, tokenCreateTranslate (.other msg)
      = .wrapped "failed to insert into tokens" (.other msg)) := by
  refine ⟨by decide, by decide, by decide, by decide, by decide, ?_, rfl, ?_, ?_, ?_, ?_, ?_, rfl, ?_⟩
  · intro code cn h1 h2
    simp [productCreateTranslate, if_neg h1, if_neg h2]
  · intro msg
    rfl
  · intro code cn h1
    simp [categoryCreateTranslate, if_neg h1]
  · intro code cn h1 h2
    simp [cartCreateTranslate, if_neg h1, if_neg h2]
  · intro cn
    simp [tokenCreateTranslate]
  · intro code cn h1
    simp [tokenCreateTranslate, if_neg h1]
  · intro msg
    rfl

/-- Witness for C3 as amended, at concrete inputs with each hypothesis
    discharged. -/
theorem C3_translator_dispatch_witness :
    productCreateTranslate (.pg "99999" "some_other_key") = .raw (.pg "99999" "some_other_key") ∧
    cartCreateTranslate (.pg "23505" "carts_user_id_fkey") = .raw (.pg "23505" "carts_user_id_fkey") ∧
    tokenCreateTranslate (.pg "23503" "tokens_user_id_fkey") = .foreignKeyViolation ∧
    tokenCreateTranslate (.pg "23505" "whatever")
      = .wrapped "failed to insert into tokens" (.pg "23505" "whatever") :=
  ⟨C3_translator_dispatch.2.2.2.2.2.1 "99999" "some_other_key" (by decide) (by decide),
   C3_translator_dispatch.2.2.2.2.2.2.2.2.2.1 "23505" "carts_user_id_fkey" (by decide) (by decide),
   C3_translator_dispatch.2.2.2.2.2.2.2.2.2.2.1 "tokens_user_id_fkey",
   C3_translator_dispatch.2.2.2.2.2.2.2.2.2.2.2.1 "23505" "whatever" (by decide)⟩

/-- Counterexample to C6 as stated: a reachable string filter value holding a
    single quote produces a nonempty equality fragment whose concatenation
    after the base WHERE clause is not syntactically valid. -/
theorem C6_counterexample :
    FormatAnd "name" ("a" ++ squoteStr ++ "b") ≠ "" ∧
    sqlTailValid (categoryListQueryTail { Name := "a" ++ squoteStr ++ "b" }) = false := by
  refine ⟨by decide, by decide⟩

/-- Claim C6 as amended: each fragment builder returns the empty string
    exactly when its parameter is absent or zero, so an absent parameter
    contributes no text; and the fragment concatenation after the
    tautological base WHERE clause is syntactically valid provided the sort
    column is absent and every string equality value is free of single
    quotes (a quoted value, or the sort fragment that the stores place
    before the equality fragments, breaks the clause sequence). -/
theorem C6_fragment_composition :
    (∀ v, FormatSort v = "" ↔ v = "") ∧
    (∀ c v, FormatAnd c v = "" ↔ v = "") ∧
    (∀ c v, FormatAndOp c v = "" ↔ v = "") ∧
    (∀ c i, FormatAndInt c i = "" ↔ i = 0) ∧
    (∀ l o, FormatLimitOffset l o = "" ↔ l ≤ 0 ∧ o ≤ 0) ∧
    (∀ f : ProductFilter, f.«Sort» = "" →
      sqlTailValid (productListQueryTail f) = true) ∧
    (∀ f : CategoryFilter, f.«Sort» = "" → (∀ c ∈ f.Name.toList, ¬ c = squote) →
      sqlTailValid (categoryListQueryTail f) = true) :=
  ⟨FormatSort_empty_iff, FormatAnd_empty_iff, FormatAndOp_empty_iff,
   FormatAndInt_empty_iff, FormatLimitOffset_empty_iff,
   productTail_valid, categoryTail_valid⟩

/-- Witness for C6 as amended, at concrete inputs with each hypothesis
    discharged. -/
theorem C6_fragment_composition_witness :
    sqlTailValid (productListQueryTail { ID := 7, CategoryID := 5, Limit := 2, Offset := 3 }) = true ∧
    sqlTailValid (categoryListQueryTail { Name := "shoes", ID := 4, Limit := 2 }) = true ∧
    (FormatAndInt "id" (-3) = "" ↔ (-3 : Int) = 0) :=
  ⟨C6_fragment_composition.2.2.2.2.2.1 { ID := 7, CategoryID := 5, Limit := 2, Offset := 3 } rfl,
   C6_fragment_composition.2.2.2.2.2.2 { Name := "shoes", ID := 4, Limit := 2 } rfl
     (by decide),
   C6_fragment_composition.2.2.2.1 "id" (-3)⟩

/-- Counterexample to C7 as stated: the equality fragment builder splices the
    value text verbatim between single quotes — no parameter binding, no
    escaping — so a value holding a quote character appears unescaped in the
    produced fragment, which is not even a valid clause. -/
theorem C7_counterexample :
    FormatAndOp "name" ("a" ++ squoteStr ++ "b")
      = "AND name=" ++ squoteStr ++ "a" ++ squoteStr ++ "b" ++ squoteStr ∧
    List.IsInfix ("a" ++ squoteStr ++ "b").toList
      ((FormatAndOp "name" ("a" ++ squoteStr ++ "b")).toList) ∧
    sqlTailValid (FormatAndOp "name" ("a" ++ squoteStr ++ "b")) = false := by
  refine ⟨by decide, by decide, by decide⟩

/-- Claim C7 as amended: for every nonempty value the builder returns the
    plain concatenation with the value inlined verbatim between single
    quotes; the value text is always an infix of the produced fragment. -/
theorem C7_value_interpolated :
    ∀ c v, v ≠ "" →
      FormatAndOp c v = "AND " ++ c ++ "=" ++ squoteStr ++ v ++ squoteStr ∧
      List.IsInfix v.toList ((FormatAndOp c v).toList) := by
  intro c v hv
  have he : FormatAndOp c v = "AND " ++ c ++ "=" ++ squoteStr ++ v ++ squoteStr := by
    rw [FormatAndOp, if_pos hv]
  refine ⟨he, ⟨("AND " ++ c ++ "=" ++ squoteStr).toList, squoteStr.toList, ?_⟩⟩
  rw [he]
  simp [toList_append, List.append_assoc]

/-- Witness for C7 as amended at a concrete input. -/
theorem C7_value_interpolated_witness :
    FormatAndOp "name" "x" = "AND " ++ "name" ++ "=" ++ squoteStr ++ "x" ++ squoteStr ∧
    List.IsInfix ("x" : String).toList ((FormatAndOp "name" "x").toList) :=
  C7_value_interpolated "name" "x" (by decide)

/-- A concrete digest function for exercising the token lookup (the real
    digest is the external sha256 collaborator). -/
def hashDemo : String → String := fun s => s ++ "#"

/-- Claim C8, evaluated at the failing input: looking up a token whose row
    exists but whose expiry has passed yields a wrapped opaque scan error —
    not a NotFound or InvalidToken kind, and not the sql.ErrNoRows the dead
    zero-id guard would return — while the same row before its expiry yields
    the user id. -/
theorem C8_token_lookup_divergence :
    TokenStore.GetUserID hashDemo [{ ID := 7, Email := "e", Password := "p" }]
      [{ Hashed := hashDemo "tok", UserID := 7, Expiry := 3 }] 5 "tok"
      = .error (.wrapped "failed to query user" .noRows) ∧
    TokenStore.GetUserID hashDemo [{ ID := 7, Email := "e", Password := "p" }]
      [{ Hashed := hashDemo "tok", UserID := 7, Expiry := 3 }] 1 "tok"
      = .ok 7 ∧
    StoreErr.wrapped "failed to query user" .noRows ≠ StoreErr.sqlNoRows ∧
    StoreErr.wrapped "failed to query user" .noRows ≠ StoreErr.invalidToken ∧
    StoreErr.wrapped "failed to query user" .noRows ≠ StoreErr.noTokenFound := by
  refine ⟨rfl, rfl, by decide, by decide, by decide⟩

/-- Claim C9: Search concatenates the category hits (each tagged as a
    category) with the product hits (each tagged as a product) and fails
    with NoSearchResult exactly when both tables yield no match; every
    returned element carries exactly one of the two tags. -/
theorem C9_search_merge :
    ∀ (m : String → String → Bool) (cats : List Category) (prods : List Product)
      (q : String),
      (SearchStore.Search m cats prods q = .error .noSearchResult ↔
        cats.filter (fun c => m q c.Name) = [] ∧
        prods.filter (fun p => m q p.Name) = []) ∧
      (∀ l, SearchStore.Search m cats prods q = .ok l →
        (l = (cats.filter (fun c => m q c.Name)).map
            (fun c => ({ Prodcuts := none, Categories := some c } : Search))
          ++ (prods.filter (fun p => m q p.Name)).map
            (fun p => ({ Prodcuts := some p, Categories := none } : Search))) ∧
        ∀ s ∈ l, (s.Categories.isSome ∧ s.Prodcuts = none) ∨
                 (s.Prodcuts.isSome ∧ s.Categories = none)) := by
  intro m cats prods q
  set RES := (cats.filter (fun c => m q c.Name)).map
      (fun c => ({ Prodcuts := none, Categories := some c } : Search))
    ++ (prods.filter (fun p => m q p.Name)).map
      (fun p => ({ Prodcuts := some p, Categories := none } : Search)) with hRES
  have hS : SearchStore.Search m cats prods q
      = if RES.isEmpty then .error .noSearchResult else .ok RES := rfl
  by_cases he : RES.isEmpty
  · rw [hS, if_pos he]
    constructor
    · constructor
      · intro _
        have h0 : RES = [] := List.isEmpty_iff.1 he
        rw [hRES] at h0
        obtain ⟨h1, h2⟩ := List.append_eq_nil.1 h0
        exact ⟨by simpa using h1, by simpa using h2⟩
      · intro _
        rfl
    · intro l hl
      simp at hl
  · rw [hS, if_neg he]
    constructor
    · constructor
      · intro h
        simp at h
      · rintro ⟨h1, h2⟩
        exfalso
        apply he
        rw [hRES, h1, h2]
        rfl
    · intro l hl
      have hle : RES = l := by
        simpa using hl
      constructor
      · rw [← hle, hRES]
      · intro s hs
        rw [← hle, hRES] at hs
        rcases List.mem_append.1 hs with h | h
        · obtain ⟨c, hc, rfl⟩ := List.mem_map.1 h
          left
          exact ⟨rfl, rfl⟩
        · obtain ⟨p, hp, rfl⟩ := List.mem_map.1 h
          right
          exact ⟨rfl, rfl⟩

/-- Concrete category hit used by the C9 witness. -/
def fooCatHit : Search := { Prodcuts := none, Categories := some { Name := "foo" } }

/-- Concrete product hit used by the C9 witness. -/
def fooProdHit : Search := { Prodcuts := some { Name := "foo" }, Categories := none }

/-- Witness for C9 at a concrete input: one matching category and one
    matching product produce a two-element merge, one hit of each tag. -/
theorem C9_search_merge_witness :
    ([fooCatHit, fooProdHit]
      = ([({ Name := "foo" } : Category)].filter
          (fun c => "foo" == c.Name)).map
            (fun c => ({ Prodcuts := none, Categories := some c } : Search))
        ++ ([({ Name := "foo" } : Product)].filter
          (fun p => "foo" == p.Name)).map
            (fun p => ({ Prodcuts := some p, Categories := none } : Search))) ∧
      ∀ s ∈ [fooCatHit, fooProdHit],
        (s.Categories.isSome ∧ s.Prodcuts = none) ∨
        (s.Prodcuts.isSome ∧ s.Categories = none) :=
  (C9_search_merge (fun q n => q == n) [{ Name := "foo" }] [{ Name := "foo" }] "foo").2
    [fooCatHit, fooProdHit] rfl

end Ecom
